import Mathlib

/-!
Verification development for the EscapeTheSenator parkour core.

This file gives a shallow embedding, over the rational numbers, of the
JavaScript sources under `src/`:

* `src/config/Constants.js` — the `PLAYER` and `PHYSICS` constant blocks.
* `src/world/parkour/ChunkGenerator.js` — the platform-pattern generator
  (`checkOverlap`, `getSafeNextZ`, all seven pattern functions, and
  `generateChunk` with its checkpoint prefix).
* `src/entities/Player.js` — the kinematic player controller: timers,
  crouch/slide, jump, wall run, gravity, axis-separated velocity
  integration and the ground check.
* `src/entities/FirstPersonCamera.js` (the `Player` class defined in that
  file) — the raycast variant of `checkGround`, which handles bounce pads.
* `src/world/parkour/InfiniteWorld.js` and
  `src/world/parkour/CheckpointPlatform.js` — checkpoint activation and
  respawn positions.
* `src/core/Engine.js` — the death/respawn step of `_update` and
  `handleParkourDeath`.
* `src/world/parkour/ChunkManager.js` — chunk lifecycle and the
  `allObstacles` aggregate.

Modelling conventions:

* JavaScript numbers are modelled as `ℚ` (exact arithmetic; floating
  point rounding is out of scope).
* `Math.exp` and `Math.sqrt` are transcendental functions of the host
  library; they are modelled as the fields of a `JsMath` parameter, and
  theorems either hold for every such function or pin its value at the
  points where it is consulted.
* `Math.random()` is modelled as an explicit stream of samples
  (a `List ℚ`, read front to back, defaulting to `0` when exhausted);
  a stream is valid when all its samples lie in `[0, 1]`.
* Event emission through the global event bus is modelled as a log,
  newest first, in the state.
* Camera-only effects (eye height targets, head bob, tilt) carry no
  simulation state that the claims mention and are not modelled; the
  camera's forward/right direction vectors, which feed movement and
  sliding, are modelled as fields of the player state.
-/

namespace ETS

/-- Rational 3-vector mirroring `THREE.Vector3` as used by the sources. -/
structure Vec3 where
  x : ℚ
  y : ℚ
  z : ℚ
deriving Repr, DecidableEq

/-- Axis-aligned box mirroring `THREE.Box3` (obstacles are consumed through
`Box3.setFromObject`, i.e. as world-space AABBs). -/
structure Box3 where
  minx : ℚ
  miny : ℚ
  minz : ℚ
  maxx : ℚ
  maxy : ℚ
  maxz : ℚ
deriving Repr, DecidableEq

/-- `THREE.Box3.intersectsBox`: boxes intersect unless they are strictly
separated along some axis (touching counts as intersecting). -/
def Box3.intersects (a b : Box3) : Bool :=
  decide (a.minx ≤ b.maxx) && decide (a.maxx ≥ b.minx) &&
  decide (a.miny ≤ b.maxy) && decide (a.maxy ≥ b.miny) &&
  decide (a.minz ≤ b.maxz) && decide (a.maxz ≥ b.minz)

/-- `THREE.MathUtils.lerp x y t = x + (y - x) * t`. -/
def qlerp (x y t : ℚ) : ℚ := x + (y - x) * t

/-- Host math library functions (`Math.exp`, `Math.sqrt`) abstracted as
parameters of the embedding. -/
structure JsMath where
  exp : ℚ → ℚ
  sqrt : ℚ → ℚ

/-! ### Constants (`src/config/Constants.js`) -/

/-- `PHYSICS.GRAVITY`. -/
def GRAVITY : ℚ := -30
/-- `PHYSICS.TERMINAL_VELOCITY`. -/
def TERMINAL_VELOCITY : ℚ := -50
/-- `PLAYER.HEIGHT`. -/
def PLAYER_HEIGHT : ℚ := 9/5
/-- `PLAYER.EYE_HEIGHT`. -/
def PLAYER_EYE_HEIGHT : ℚ := 8/5
/-- `PLAYER.RADIUS`. -/
def PLAYER_RADIUS : ℚ := 2/5
/-- `PLAYER.WALK_SPEED`. -/
def WALK_SPEED : ℚ := 8
/-- `PLAYER.RUN_SPEED`. -/
def RUN_SPEED : ℚ := 15
/-- `PLAYER.ACCELERATION`. -/
def ACCELERATION : ℚ := 50
/-- `PLAYER.DECELERATION`. -/
def DECELERATION : ℚ := 40
/-- `PLAYER.AIR_CONTROL`. -/
def AIR_CONTROL : ℚ := 3/10
/-- `PLAYER.JUMP_FORCE`. -/
def JUMP_FORCE : ℚ := 12
/-- `PLAYER.JUMP_COOLDOWN`. -/
def JUMP_COOLDOWN : ℚ := 1/10
/-- `PLAYER.COYOTE_TIME`. -/
def COYOTE_TIME : ℚ := 3/20
/-- `PLAYER.JUMP_BUFFER`. -/
def JUMP_BUFFER : ℚ := 1/10
/-- `PLAYER.CROUCH_HEIGHT`. -/
def CROUCH_HEIGHT : ℚ := 1
/-- `PLAYER.CROUCH_EYE_HEIGHT`. -/
def CROUCH_EYE_HEIGHT : ℚ := 4/5
/-- `PLAYER.CROUCH_SPEED`. -/
def CROUCH_SPEED : ℚ := 3
/-- `PLAYER.SLIDE_SPEED`. -/
def SLIDE_SPEED : ℚ := 18
/-- `PLAYER.SLIDE_FRICTION`. -/
def SLIDE_FRICTION : ℚ := 12
/-- `PLAYER.SLIDE_MIN_SPEED`. -/
def SLIDE_MIN_SPEED : ℚ := 3
/-- `PLAYER.SLIDE_COOLDOWN`. -/
def SLIDE_COOLDOWN : ℚ := 1/2
/-- `PLAYER.SLIDE_MIN_SPRINT_TIME`. -/
def SLIDE_MIN_SPRINT_TIME : ℚ := 3/10

/-! ### Chunk generator (`src/world/parkour/ChunkGenerator.js`) -/

/-- `SPACING.MIN_EDGE_GAP`. -/
def MIN_EDGE_GAP : ℚ := 5
/-- `SPACING.MAX_EDGE_GAP`. -/
def MAX_EDGE_GAP : ℚ := 9
/-- `SPACING.OVERLAP_BUFFER`. -/
def OVERLAP_BUFFER : ℚ := 1/2
/-- `SPACING.WALL_RUN_APPROACH`. -/
def WALL_RUN_APPROACH : ℚ := 8
/-- `CHECKPOINT.CHUNK_INTERVAL`. -/
def CHECKPOINT_CHUNK_INTERVAL : ℕ := 3
/-- `CHECKPOINT.WIDTH`. -/
def CHECKPOINT_WIDTH : ℚ := 20
/-- `CHECKPOINT.LENGTH`. -/
def CHECKPOINT_LENGTH : ℚ := 14

/-- The controller's maximum achievable running-jump distance, computed as in
the spec from `RUN_SPEED` and the total airtime of a jump under
`GRAVITY`/`JUMP_FORCE` (rise plus fall to the take-off height):
`15 * (2 * 12 / 30) = 12` units, matching the source comment
`speed=15, jump_time=0.8s, max_distance=~12 units`. -/
def maxRunningJumpDistance : ℚ := RUN_SPEED * (2 * JUMP_FORCE / (-GRAVITY))

/-- The `PARKOUR` export of `Constants.js` is referenced by the generator but
its definition is not among the sources; the fields the generator reads are
kept as parameters. Claims proved below hold for all values of these fields. -/
structure ParkourC where
  HEIGHT_MAX : ℚ
  PLATFORM_HEIGHT : ℚ
  BOUNCE_FORCE : ℚ

/-- Platform kinds constructed by the generator
(`BasicPlatform`, `RampPlatform`, `BouncePad`, `WallRunSegment`,
`CheckpointPlatform`). -/
inductive PKind where
  | basic
  | ramp
  | bouncePad
  | wallSeg
  | checkpoint
deriving Repr, DecidableEq

/-- A generated platform: kind, world position of its group, footprint and
kind-specific payload. For `WallRunSegment` the footprint width is the wall
thickness (`0.5` in `RampPlatform.js`). -/
structure Platform where
  kind : PKind
  x : ℚ
  y : ℚ
  z : ℚ
  width : ℚ
  length : ℚ
  rot : ℚ
  bounceForce : ℚ
  heightStart : ℚ
  heightEnd : ℚ
  checkpointId : ℕ
deriving Repr, DecidableEq

instance : Inhabited Platform :=
  ⟨⟨PKind.basic, 0, 0, 0, 0, 0, 0, 0, 0, 0, 0⟩⟩

/-- Build a `BasicPlatform` entry (payload fields zero). -/
def mkBasic (x y z w l rot : ℚ) : Platform :=
  ⟨PKind.basic, x, y, z, w, l, rot, 0, 0, 0, 0⟩

/-- `ChunkGenerator.randomRange(min, max)` with the consumed `Math.random()`
sample `r` made explicit. -/
def randomRange (lo hi r : ℚ) : ℚ := lo + r * (hi - lo)

/-- `ChunkGenerator.checkOverlap`: buffered axis-aligned bounding boxes of the
two footprints intersect (strict comparisons, as in the source). -/
def checkOverlap (p1 p2 : Platform) : Bool :=
  let p1MinX := p1.x - p1.width / 2 - OVERLAP_BUFFER
  let p1MaxX := p1.x + p1.width / 2 + OVERLAP_BUFFER
  let p1MinZ := p1.z - p1.length / 2 - OVERLAP_BUFFER
  let p1MaxZ := p1.z + p1.length / 2 + OVERLAP_BUFFER
  let p2MinX := p2.x - p2.width / 2 - OVERLAP_BUFFER
  let p2MaxX := p2.x + p2.width / 2 + OVERLAP_BUFFER
  let p2MinZ := p2.z - p2.length / 2 - OVERLAP_BUFFER
  let p2MaxZ := p2.z + p2.length / 2 + OVERLAP_BUFFER
  (decide (p1MinX < p2MaxX) && decide (p1MaxX > p2MinX)) &&
  (decide (p1MinZ < p2MaxZ) && decide (p1MaxZ > p2MinZ))

/-- `ChunkGenerator.getSafeNextZ`, with the gap's random sample explicit:
edge of the last platform, plus a random gap in
`[MIN_EDGE_GAP, MAX_EDGE_GAP]`, plus half of the next platform. -/
def getSafeNextZ (currentZ lastLength nextLength r : ℚ) : ℚ :=
  currentZ + lastLength / 2 + randomRange MIN_EDGE_GAP MAX_EDGE_GAP r + nextLength / 2

/-- The longitudinal edge gap between two platforms placed in sequence:
near edge of the later one minus far edge of the earlier one. -/
def edgeGap (p q : Platform) : ℚ := (q.z - q.length / 2) - (p.z + p.length / 2)

/-- Chunk configuration passed to `generateChunk` and the pattern functions. -/
structure ChunkCfg where
  startZ : ℚ
  length : ℚ
  startHeight : ℚ
  rotation : ℚ
  curveAmount : ℚ
deriving Repr, DecidableEq

/-- The data accumulated in a generated chunk: the platform list (in creation
order; obstacles are the platforms' collision meshes, one per platform) and
the chunk's exit height and exit coordinate. -/
structure ChunkData where
  platforms : List Platform
  endHeight : ℚ
  endZ : ℚ
deriving Repr, DecidableEq

/-- Loop body of `generateStraightPattern`: while there is room, place a
platform of random length `[8,12]` and width `[5,8]`, the first at
`currentZ + length/2`, later ones via `getSafeNextZ`. The `while` loop is
modelled with explicit fuel; every theorem below holds for every fuel. -/
def straightLoop (cfg : ChunkCfg) : ℕ → ℚ → ℚ → List ℚ → List Platform
  | 0, _, _, _ => []
  | fuel + 1, currentZ, lastPlatLength, str =>
    if currentZ < cfg.startZ + cfg.length - 12 - MAX_EDGE_GAP then
      let platLength := randomRange 8 12 (str.headD 0)
      let platWidth := randomRange 5 8 ((str.drop 1).headD 0)
      let platCenterZ :=
        if lastPlatLength = 0 then currentZ + platLength / 2
        else getSafeNextZ currentZ lastPlatLength platLength ((str.drop 2).headD 0)
      let str' := if lastPlatLength = 0 then str.drop 2 else str.drop 3
      mkBasic 0 cfg.startHeight platCenterZ platWidth platLength cfg.rotation ::
        straightLoop cfg fuel platCenterZ platLength str'
    else []

/-- `ChunkGenerator.generateStraightPattern`: the straight run of basic
platforms; the height never changes, so `endHeight = startHeight`. -/
def generateStraightPattern (cfg : ChunkCfg) (fuel : ℕ) (str : List ℚ) :
    List Platform × ℚ :=
  (straightLoop cfg fuel cfg.startZ 0 str, cfg.startHeight)

/-- Loop body of `generateSteppingStonesPattern` (recursion on the remaining
stone count, with the same early-exit condition as the `for` loop). Each
iteration consumes the samples for the stone width, stone length, lateral
target, optionally the diagonal gap, then the height change. -/
def steppingLoop (env : JsMath) (pk : ParkourC) (cfg : ChunkCfg) :
    ℕ → ℕ → ℚ → ℚ → ℚ → ℚ → List ℚ → List Platform × ℚ
  | 0, _, _, currentHeight, _, _, _ => ([], currentHeight)
  | count + 1, i, currentZ, currentHeight, lastPlatLength, lastX, str =>
    if currentZ < cfg.startZ + cfg.length - 7 - MIN_EDGE_GAP then
      let stoneWidth := randomRange 5 7 (str.headD 0)
      let stoneLength := randomRange 5 7 ((str.drop 1).headD 0)
      let targetX := (if i % 2 = 0 then 1 else -1) * randomRange 3 5 ((str.drop 2).headD 0)
      let xDistance := |targetX - lastX|
      let platCenterZ :=
        if lastPlatLength = 0 then currentZ + stoneLength / 2
        else
          let maxZDist := env.sqrt (10 * 10 - xDistance * xDistance)
          let minZGap := MIN_EDGE_GAP * (7/10)
          let maxZGap := min (MAX_EDGE_GAP * (8/10)) maxZDist
          let gap := randomRange minZGap (max minZGap maxZGap) ((str.drop 3).headD 0)
          currentZ + lastPlatLength / 2 + gap + stoneLength / 2
      let str1 := if lastPlatLength = 0 then str.drop 3 else str.drop 4
      let heightChange := randomRange (-1/2) 1 (str1.headD 0)
      let newHeight := max 0 (min pk.HEIGHT_MAX (currentHeight + heightChange))
      let p := mkBasic targetX newHeight platCenterZ stoneWidth stoneLength cfg.rotation
      let rec' := steppingLoop env pk cfg count (i + 1) platCenterZ newHeight
        stoneLength targetX (str1.drop 1)
      (p :: rec'.1, rec'.2)
    else ([], currentHeight)

/-- `ChunkGenerator.generateSteppingStonesPattern`. -/
def generateSteppingStonesPattern (env : JsMath) (pk : ParkourC) (cfg : ChunkCfg)
    (str : List ℚ) : List Platform × ℚ :=
  let avgGap := (MIN_EDGE_GAP + MAX_EDGE_GAP) / 2
  let stoneCount := (Int.floor (cfg.length / (5 + avgGap))).toNat
  steppingLoop env pk cfg stoneCount 0 cfg.startZ cfg.startHeight 0 0 str

/-- `ChunkGenerator.generateRampPattern`: approach platform, ramp (overlapping
both neighbours by `connectionOverlap = 0.5` for a seamless transition), end
platform, and an optional follow-up platform. -/
def generateRampPattern (pk : ParkourC) (cfg : ChunkCfg) (goingUp : Bool)
    (str : List ℚ) : List Platform × ℚ :=
  let startPlatLength : ℚ := 10
  let startPlatWidth : ℚ := 6
  let endPlatLength : ℚ := 10
  let endPlatWidth : ℚ := 6
  let rampWidth : ℚ := 5
  let connectionOverlap : ℚ := 1/2
  let minRampLength : ℚ := 12
  let availableLength := cfg.length - startPlatLength - endPlatLength + connectionOverlap * 2
  let rampLength := max minRampLength (min 18 (availableLength * (6/10)))
  let startPlatZ := cfg.startZ + startPlatLength / 2
  let rampStartZ := startPlatZ + startPlatLength / 2 - connectionOverlap
  let rampZ := rampStartZ + rampLength / 2
  let endPlatZ := rampZ + rampLength / 2 - connectionOverlap + endPlatLength / 2
  let heightChange :=
    if goingUp then randomRange 3 5 (str.headD 0) else -(randomRange 3 5 (str.headD 0))
  let endHeight := max (1/2) (min pk.HEIGHT_MAX (cfg.startHeight + heightChange))
  let startPlat := mkBasic 0 cfg.startHeight startPlatZ startPlatWidth startPlatLength cfg.rotation
  let ramp : Platform :=
    ⟨PKind.ramp, 0, 0, rampZ, rampWidth, rampLength, cfg.rotation, 0,
      cfg.startHeight + pk.PLATFORM_HEIGHT / 2, endHeight + pk.PLATFORM_HEIGHT / 2, 0⟩
  let endPlat := mkBasic 0 endHeight endPlatZ endPlatWidth endPlatLength cfg.rotation
  let followUpLength : ℚ := 8
  let followUpZ := endPlatZ + endPlatLength / 2 + MIN_EDGE_GAP + followUpLength / 2
  let followUps :=
    if followUpZ < cfg.startZ + cfg.length - followUpLength then
      [mkBasic 0 endHeight followUpZ 6 followUpLength cfg.rotation]
    else []
  (startPlat :: ramp :: endPlat :: followUps, endHeight)

/-- `ChunkGenerator.generateBouncePattern`: approach platform, bounce pad one
`MIN_EDGE_GAP` beyond it, a high landing platform a fixed
`bounceDistance = 15` beyond the pad, and an optional end platform. -/
def generateBouncePattern (pk : ParkourC) (cfg : ChunkCfg) : List Platform × ℚ :=
  let approachPlatLength : ℚ := 12
  let approachPlatWidth : ℚ := 6
  let bouncePadLength : ℚ := 4
  let bouncePadWidth : ℚ := 4
  let landingPlatLength : ℚ := 10
  let landingPlatWidth : ℚ := 8
  let endPlatLength : ℚ := 8
  let endPlatWidth : ℚ := 6
  let approachPlatZ := cfg.startZ + approachPlatLength / 2
  let bouncePadZ := approachPlatZ + approachPlatLength / 2 + MIN_EDGE_GAP + bouncePadLength / 2
  let bounceDistance : ℚ := 15
  let landingPlatZ := bouncePadZ + bouncePadLength / 2 + bounceDistance + landingPlatLength / 2
  let endPlatZ := landingPlatZ + landingPlatLength / 2 + MIN_EDGE_GAP + endPlatLength / 2
  let approachPlat :=
    mkBasic 0 cfg.startHeight approachPlatZ approachPlatWidth approachPlatLength cfg.rotation
  let bouncePad : Platform :=
    ⟨PKind.bouncePad, 0, cfg.startHeight + 3/10, bouncePadZ, bouncePadWidth,
      bouncePadLength, cfg.rotation, pk.BOUNCE_FORCE, 0, 0, 0⟩
  let landingHeight := cfg.startHeight + 5
  let landingPlat :=
    mkBasic 0 landingHeight landingPlatZ landingPlatWidth landingPlatLength cfg.rotation
  let endPlats :=
    if endPlatZ < cfg.startZ + cfg.length - endPlatLength / 2 then
      [mkBasic 0 landingHeight endPlatZ endPlatWidth endPlatLength cfg.rotation]
    else []
  (approachPlat :: bouncePad :: landingPlat :: endPlats, landingHeight)

/-- `ChunkGenerator.generateWallRunPattern`: approach platform, a wall-run
segment on a random side, a landing platform on the opposite side, and an
optional end platform back at the centre. -/
def generateWallRunPattern (cfg : ChunkCfg) (str : List ℚ) : List Platform × ℚ :=
  let approachPlatLength : ℚ := 12
  let approachPlatWidth : ℚ := 6
  let wallLength : ℚ := 18
  let wallHeight : ℚ := 7
  let landingPlatLength : ℚ := 10
  let landingPlatWidth : ℚ := 6
  let endPlatLength : ℚ := 8
  let endPlatWidth : ℚ := 6
  let approachPlatZ := cfg.startZ + approachPlatLength / 2
  let leftSide := decide (str.headD 0 > 1/2)
  let wallX : ℚ := if leftSide then -3 else 3
  let wallZ := approachPlatZ + approachPlatLength / 2 + WALL_RUN_APPROACH + wallLength / 2
  let landingX : ℚ := if leftSide then 3 else -3
  let landingPlatZ := wallZ + wallLength / 2 + 2 + landingPlatLength / 2
  let endPlatZ := landingPlatZ + landingPlatLength / 2 + MIN_EDGE_GAP + endPlatLength / 2
  let approachPlat :=
    mkBasic 0 cfg.startHeight approachPlatZ approachPlatWidth approachPlatLength cfg.rotation
  let wall : Platform :=
    ⟨PKind.wallSeg, wallX, cfg.startHeight, wallZ, 1/2, wallLength, cfg.rotation,
      0, 0, wallHeight, 0⟩
  let landingPlat :=
    mkBasic landingX cfg.startHeight landingPlatZ landingPlatWidth landingPlatLength cfg.rotation
  let endPlats :=
    if endPlatZ < cfg.startZ + cfg.length - endPlatLength / 2 then
      [mkBasic 0 cfg.startHeight endPlatZ endPlatWidth endPlatLength cfg.rotation]
    else []
  (approachPlat :: wall :: landingPlat :: endPlats, cfg.startHeight)

/-- Loop body of `generateZigzagPattern` (recursion on the platform count with
the same early-exit condition as the `for` loop). -/
def zigzagLoop (cfg : ChunkCfg) (direction minZGap maxZGap : ℚ) :
    ℕ → ℕ → ℚ → ℚ → List ℚ → List Platform
  | 0, _, _, _, _ => []
  | count + 1, i, currentZ, lastPlatLength, str =>
    let platWidth : ℚ := 6
    let platLength : ℚ := 8
    let xSeparation : ℚ := 7
    if currentZ < cfg.startZ + cfg.length - platLength - minZGap then
      let xOffset := direction * (if i % 2 = 0 then xSeparation / 2 else -(xSeparation / 2))
      let platCenterZ :=
        if lastPlatLength = 0 then currentZ + platLength / 2
        else currentZ + lastPlatLength / 2 + randomRange minZGap maxZGap (str.headD 0) + platLength / 2
      let str' := if lastPlatLength = 0 then str else str.drop 1
      mkBasic xOffset cfg.startHeight platCenterZ platWidth platLength cfg.rotation ::
        zigzagLoop cfg direction minZGap maxZGap count (i + 1) platCenterZ platLength str'
    else []

/-- `ChunkGenerator.generateZigzagPattern`. -/
def generateZigzagPattern (env : JsMath) (cfg : ChunkCfg) (str : List ℚ) :
    List Platform × ℚ :=
  let direction : ℚ := if str.headD 0 > 1/2 then 1 else -1
  let platLength : ℚ := 8
  let xSeparation : ℚ := 7
  let maxTotalJumpDist : ℚ := 11
  let maxZDist := env.sqrt (maxTotalJumpDist * maxTotalJumpDist - xSeparation * xSeparation)
  let minZGap : ℚ := 4
  let maxZGap := min 7 maxZDist
  let avgSpacing := platLength + (minZGap + maxZGap) / 2
  let platformCount := (Int.floor ((cfg.length - platLength) / avgSpacing)).toNat
  (zigzagLoop cfg direction minZGap maxZGap platformCount 0 cfg.startZ 0 (str.drop 1),
    cfg.startHeight)

/-- The pattern catalogue, in the order of `Object.values(PatternType)`. -/
inductive Pat where
  | straight
  | steppingStones
  | rampUp
  | rampDown
  | bounceJump
  | wallRun
  | zigzag
deriving Repr, DecidableEq

/-- The `patterns` list of the generator. -/
def patternsList : List Pat :=
  [Pat.straight, Pat.steppingStones, Pat.rampUp, Pat.rampDown,
   Pat.bounceJump, Pat.wallRun, Pat.zigzag]

/-- Generator state (`lastPattern`, `chunkCount`, `checkpointCount`).
`lastPattern` is `none` both initially and after an out-of-range random index
(where the JS indexing yields `undefined`). -/
structure GenSt where
  lastPattern : Option Pat
  chunkCount : ℕ
  checkpointCount : ℕ
deriving Repr, DecidableEq

/-- `ChunkGenerator.selectPattern`: filter out the previous pattern, then index
by `Math.floor(r * available.length)`; an out-of-range sample yields
`undefined` (`none`), which the dispatch treats as the default. -/
def selectPattern (last : Option Pat) (r : ℚ) : Option Pat :=
  let available := patternsList.filter (fun p => ¬ some p = last)
  let idx := Int.floor (r * available.length)
  if idx < 0 then none else available.get? idx.toNat

/-- `ChunkGenerator.generatePatternForChunk`: select a pattern (consuming one
sample), dispatch on it (the `undefined` case falls through to the straight
pattern), and record it as `lastPattern`. -/
def generatePatternForChunk (env : JsMath) (pk : ParkourC) (fuel : ℕ)
    (gst : GenSt) (cfg : ChunkCfg) (str : List ℚ) : (List Platform × ℚ) × GenSt :=
  let pat := selectPattern gst.lastPattern (str.headD 0)
  let str' := str.drop 1
  let out :=
    match pat with
    | some Pat.straight => generateStraightPattern cfg fuel str'
    | some Pat.steppingStones => generateSteppingStonesPattern env pk cfg str'
    | some Pat.rampUp => generateRampPattern pk cfg true str'
    | some Pat.rampDown => generateRampPattern pk cfg false str'
    | some Pat.bounceJump => generateBouncePattern pk cfg
    | some Pat.wallRun => generateWallRunPattern cfg str'
    | some Pat.zigzag => generateZigzagPattern env cfg str'
    | none => generateStraightPattern cfg fuel str'
  (out, { gst with lastPattern := pat })

/-- `ChunkGenerator.shouldPlaceCheckpoint` (evaluated after `chunkCount` was
incremented by `generateChunk`). -/
def shouldPlaceCheckpoint (chunkCount : ℕ) : Bool :=
  decide (0 < chunkCount) && decide (chunkCount % CHECKPOINT_CHUNK_INTERVAL = 0)

/-- `ChunkGenerator.generateChunk`: bump the chunk counter, optionally prefix
a checkpoint platform (shrinking the config by the checkpoint length plus
`MIN_EDGE_GAP`), then generate the pattern content. -/
def generateChunk (env : JsMath) (pk : ParkourC) (fuel : ℕ) (gst : GenSt)
    (cfg : ChunkCfg) (str : List ℚ) : ChunkData × GenSt :=
  let gst1 : GenSt := { gst with chunkCount := gst.chunkCount + 1 }
  if shouldPlaceCheckpoint gst1.chunkCount then
    let checkpointZ := cfg.startZ + CHECKPOINT_LENGTH / 2
    let gst2 : GenSt := { gst1 with checkpointCount := gst1.checkpointCount + 1 }
    let checkpoint : Platform :=
      ⟨PKind.checkpoint, 0, cfg.startHeight, checkpointZ, CHECKPOINT_WIDTH,
        CHECKPOINT_LENGTH, cfg.rotation, 0, 0, 0, gst2.checkpointCount⟩
    let modifiedCfg : ChunkCfg :=
      { cfg with
        startZ := checkpointZ + CHECKPOINT_LENGTH / 2 + MIN_EDGE_GAP,
        length := cfg.length - (CHECKPOINT_LENGTH + MIN_EDGE_GAP) }
    let out := generatePatternForChunk env pk fuel gst2 modifiedCfg str
    (⟨checkpoint :: out.1.1, out.1.2, cfg.startZ + cfg.length⟩, out.2)
  else
    let out := generatePatternForChunk env pk fuel gst1 cfg str
    (⟨out.1.1, out.1.2, cfg.startZ + cfg.length⟩, out.2)

/-! ### Player controller (`src/entities/Player.js`) -/

/-- Discrete events emitted on the global event bus by the embedded code. -/
inductive Ev where
  | jump
  | land
  | sprintStart
  | sprintEnd
  | crouchStart
  | crouchEnd
  | slideStart
  | slideEnd
  | death
  | respawn
deriving Repr, DecidableEq

/-- Per-tick input snapshot (`inputManager` queries): the movement vector and
the `just-pressed`/`held` action states consulted by the player update. -/
structure Input where
  moveX : ℚ
  moveZ : ℚ
  sprintHeld : Bool
  jumpPressed : Bool
  crouchPressed : Bool
  crouchHeld : Bool
deriving Repr, DecidableEq

/-- The player state: every field of the `Player` constructor that carries
simulation state, plus the camera's forward/right directions (the only camera
data the movement code reads) and the event log (newest first). -/
structure PState where
  position : Vec3
  velocity : Vec3
  isGrounded : Bool
  isSprinting : Bool
  isMoving : Bool
  isCrouching : Bool
  isSliding : Bool
  slideTime : ℚ
  slideCooldown : ℚ
  slideDirection : Vec3
  currentHeight : ℚ
  canJump : Bool
  jumpCooldown : ℚ
  coyoteTime : ℚ
  jumpBufferTime : ℚ
  wasSprinting : Bool
  sprintTime : ℚ
  wasCrouching : Bool
  wasSliding : Bool
  obstacles : List Box3
  isWallRunning : Bool
  wallRunTime : ℚ
  wallRunMaxTime : ℚ
  wallRunDirection : Vec3
  wallNormal : Vec3
  wallRunCooldown : ℚ
  wallRunSpeed : ℚ
  camForward : Vec3
  camRight : Vec3
  events : List Ev
deriving Repr, DecidableEq

/-- Append an event to the log (newest first). -/
def emit (e : Ev) (s : PState) : PState := { s with events := e :: s.events }

/-- `Player.updateTimers`: each cooldown/grace timer is decremented by
`deltaTime`, but only while it is positive (coyote time additionally only
while airborne). -/
def updateTimers (dt : ℚ) (s : PState) : PState :=
  { s with
    jumpCooldown := if s.jumpCooldown > 0 then s.jumpCooldown - dt else s.jumpCooldown,
    coyoteTime :=
      if ¬ s.isGrounded ∧ s.coyoteTime > 0 then s.coyoteTime - dt else s.coyoteTime,
    jumpBufferTime := if s.jumpBufferTime > 0 then s.jumpBufferTime - dt else s.jumpBufferTime,
    wallRunCooldown := if s.wallRunCooldown > 0 then s.wallRunCooldown - dt else s.wallRunCooldown,
    slideCooldown := if s.slideCooldown > 0 then s.slideCooldown - dt else s.slideCooldown }

/-- `Player.handleMovement`: no control while sliding; otherwise resolve the
input into a camera-relative target velocity and smooth the horizontal
velocity toward it with `lerp(v, target, 1 - exp(-k*dt))`. -/
def handleMovement (env : JsMath) (inp : Input) (dt : ℚ) (s : PState) : PState :=
  if s.isSliding then { s with isMoving := true, isSprinting := false }
  else
    let moving := decide (inp.moveX ≠ 0) || decide (inp.moveZ ≠ 0)
    let sprinting := moving && inp.sprintHeld && !s.isCrouching
    let sprintTime' := if sprinting then s.sprintTime + dt else 0
    let speed :=
      if s.isCrouching then CROUCH_SPEED
      else if sprinting then RUN_SPEED else WALK_SPEED
    let mdx := (if inp.moveZ ≠ 0 then s.camForward.x * (-inp.moveZ) else 0) +
               (if inp.moveX ≠ 0 then s.camRight.x * inp.moveX else 0)
    let mdz := (if inp.moveZ ≠ 0 then s.camForward.z * (-inp.moveZ) else 0) +
               (if inp.moveX ≠ 0 then s.camRight.z * inp.moveX else 0)
    if moving then
      let accel := if s.isGrounded then ACCELERATION else ACCELERATION * AIR_CONTROL
      let t := 1 - env.exp (-accel * dt)
      { s with
        isMoving := moving, isSprinting := sprinting, sprintTime := sprintTime',
        velocity := { s.velocity with
          x := qlerp s.velocity.x (mdx * speed) t,
          z := qlerp s.velocity.z (mdz * speed) t } }
    else
      let decel := if s.isGrounded then DECELERATION else DECELERATION * AIR_CONTROL
      let t := 1 - env.exp (-decel * dt)
      { s with
        isMoving := moving, isSprinting := sprinting, sprintTime := sprintTime',
        velocity := { s.velocity with
          x := qlerp s.velocity.x 0 t,
          z := qlerp s.velocity.z 0 t } }

/-- `Player.startCrouch`. -/
def startCrouch (s : PState) : PState :=
  { s with isCrouching := true, currentHeight := CROUCH_HEIGHT }

/-- `Player.endCrouch`. -/
def endCrouch (s : PState) : PState :=
  { s with isCrouching := false, currentHeight := PLAYER_HEIGHT }

/-- `Player.endSlide`: clears the slide flag, starts the slide cooldown and
emits `slide:end`. -/
def endSlide (s : PState) : PState :=
  emit Ev.slideEnd { s with isSliding := false, slideCooldown := SLIDE_COOLDOWN }

/-- `Player.endCrouchSlide`. -/
def endCrouchSlide (s : PState) : PState :=
  let s1 := if s.isSliding then endSlide s else s
  if s1.isCrouching then endCrouch s1 else s1

/-- `Player.updateCrouchHeight`. -/
def updateCrouchHeight (s : PState) : PState :=
  if s.isSliding || s.isCrouching then { s with currentHeight := CROUCH_HEIGHT }
  else { s with currentHeight := PLAYER_HEIGHT }

/-- The body of `Player.canStandUp` (the `Player.js` variant) as a function
of the data it reads — the player position and the obstacle list: with no
obstacles standing is always allowed; otherwise an axis-aligned box spanning
from crouch height to full height must intersect no obstacle. -/
def canStandUpAt (pos : Vec3) (obstacles : List Box3) : Bool :=
  if obstacles.isEmpty then true
  else
    let halfWidth := PLAYER_RADIUS
    let standBox : Box3 :=
      ⟨pos.x - halfWidth, pos.y - CROUCH_HEIGHT, pos.z - halfWidth,
       pos.x + halfWidth, pos.y - CROUCH_HEIGHT + PLAYER_HEIGHT,
       pos.z + halfWidth⟩
    !(obstacles.any (fun ob => standBox.intersects ob))

/-- `Player.canStandUp`. -/
def canStandUp (s : PState) : Bool := canStandUpAt s.position s.obstacles

/-- `Player.getCurrentSpeed`: horizontal speed `sqrt(vx^2 + vz^2)`. -/
def getCurrentSpeed (env : JsMath) (s : PState) : ℚ :=
  env.sqrt (s.velocity.x ^ 2 + s.velocity.z ^ 2)

/-- `Player.startSlide`: captures the slide direction from the current
velocity (or the camera forward direction when stationary) and sets the
momentum-boosted slide speed. -/
def startSlide (env : JsMath) (s : PState) : PState :=
  let s1 := { s with
    isSliding := true, isCrouching := false, slideTime := 0,
    currentHeight := CROUCH_HEIGHT }
  let speed := getCurrentSpeed env s1
  let s2 :=
    if speed > 0 then
      let len := env.sqrt (s1.velocity.x ^ 2 + s1.velocity.z ^ 2)
      let dir : Vec3 := ⟨s1.velocity.x / len, 0, s1.velocity.z / len⟩
      let momentumBoost := max 0 ((speed - WALK_SPEED) * (3/10))
      let slideSpeed := max speed SLIDE_SPEED + momentumBoost
      { s1 with
        slideDirection := dir,
        velocity := { s1.velocity with x := dir.x * slideSpeed, z := dir.z * slideSpeed } }
    else
      { s1 with
        slideDirection := s1.camForward,
        velocity := { s1.velocity with
          x := s1.camForward.x * SLIDE_SPEED, z := s1.camForward.z * SLIDE_SPEED } }
  emit Ev.slideStart s2

/-- The friction step of the sliding branch of `Player.handleCrouchSlide`:
advance the slide clock and decelerate the horizontal velocity with
momentum-based friction; returns the updated state together with the decayed
speed (`newSpeed`). -/
def slideFriction (env : JsMath) (dt : ℚ) (s : PState) : PState × ℚ :=
  let s1 := { s with slideTime := s.slideTime + dt }
  let slideSpeed := env.sqrt (s1.velocity.x ^ 2 + s1.velocity.z ^ 2)
  let momentumFactor := max (3/10) (slideSpeed / SLIDE_SPEED)
  let effectiveFriction := SLIDE_FRICTION / momentumFactor
  let decelAmount := effectiveFriction * dt
  let newSpeed := max 0 (slideSpeed - decelAmount)
  let s2 :=
    if newSpeed > 0 ∧ slideSpeed > 0 then
      { s1 with velocity := { s1.velocity with
          x := s1.velocity.x * (newSpeed / slideSpeed),
          z := s1.velocity.z * (newSpeed / slideSpeed) } }
    else s1
  (s2, newSpeed)

/-- The sliding branch of `Player.handleCrouchSlide` (the `if (this.isSliding)`
block): apply `slideFriction`, end the slide into a crouch below
`SLIDE_MIN_SPEED`, and let a crouch press cancel the slide (crouching again
only if standing up is blocked). -/
def slidingUpdate (env : JsMath) (inp : Input) (dt : ℚ) (s : PState) : PState :=
  let fr := slideFriction env dt s
  let s3 := if fr.2 < SLIDE_MIN_SPEED then startCrouch (endSlide fr.1) else fr.1
  if inp.crouchPressed then
    let s4 := endSlide s3
    if !(canStandUp s4) then startCrouch s4 else s4
  else s3

/-- The crouch-toggle tail of `Player.handleCrouchSlide`: a crouch press on
the ground either stands up (when the stand-up probe is clear) or crouches;
then the camera target height is refreshed from the state. -/
def crouchToggleUpdate (inp : Input) (s : PState) : PState :=
  let s1 :=
    if inp.crouchPressed && s.isGrounded then
      if s.isCrouching then
        if canStandUp s then endCrouch s else s
      else startCrouch s
    else s
  updateCrouchHeight s1

/-- `Player.handleCrouchSlide`: the crouch/slide state machine — no
crouch/slide while wall running (a slide is force-ended), none can start
while airborne, the sliding branch is `slidingUpdate`, a crouch press after
enough sprinting starts a slide, and otherwise the crouch toggle runs. -/
def handleCrouchSlide (env : JsMath) (inp : Input) (dt : ℚ) (s : PState) : PState :=
  if s.isWallRunning then
    if s.isSliding then endSlide s else s
  else if ¬ s.isGrounded ∧ ¬ s.isSliding ∧ ¬ s.isCrouching then s
  else if s.isSliding then slidingUpdate env inp dt s
  else if inp.crouchPressed && s.isSprinting &&
      decide (s.sprintTime ≥ SLIDE_MIN_SPRINT_TIME) &&
      decide (s.slideCooldown ≤ 0) && s.isGrounded then
    startSlide env s
  else crouchToggleUpdate inp s

/-- `Player.endWallRun`. -/
def endWallRun (s : PState) : PState :=
  { s with isWallRunning := false, wallRunCooldown := 3/10 }

/-- `Player.wallJump`: jump up and away from the wall, end the wall run with
the longer `0.5` cooldown, and start the jump cooldown. -/
def wallJump (s : PState) : PState :=
  let s1 := { s with
    velocity := { s.velocity with
      y := JUMP_FORCE * (9/10),
      x := s.velocity.x + s.wallNormal.x * 8,
      z := s.velocity.z + s.wallNormal.z * 8 } }
  let s2 := { (endWallRun s1) with wallRunCooldown := 1/2 }
  emit Ev.jump { s2 with jumpBufferTime := 0, jumpCooldown := JUMP_COOLDOWN }

/-- `Player.jump`: set the vertical velocity to `JUMP_FORCE`, leave the
ground, start the jump cooldown, clear coyote time and the jump buffer, and
cancel any crouch/slide. -/
def jump (s : PState) : PState :=
  let s1 := { s with
    velocity := { s.velocity with y := JUMP_FORCE },
    isGrounded := false, canJump := false,
    jumpCooldown := JUMP_COOLDOWN, coyoteTime := 0, jumpBufferTime := 0 }
  let s2 := if s1.isCrouching || s1.isSliding then endCrouchSlide s1 else s1
  emit Ev.jump s2

/-- `Player.handleJump`: a press refills the jump buffer; wall jump takes
priority while wall running; otherwise jump when buffered and either grounded
or in coyote time, with the cooldown elapsed. -/
def handleJump (inp : Input) (s : PState) : PState :=
  let s1 := if inp.jumpPressed then { s with jumpBufferTime := JUMP_BUFFER } else s
  if s1.isWallRunning ∧ s1.jumpBufferTime > 0 then wallJump s1
  else
    let canJumpNow := (s1.isGrounded ∨ s1.coyoteTime > 0) ∧ s1.jumpCooldown ≤ 0
    if s1.jumpBufferTime > 0 ∧ canJumpNow then jump s1 else s1

/-- `Player.applyGravity`: wall running pins a slight downward drift;
otherwise, while airborne, integrate gravity and clamp to terminal velocity. -/
def applyGravity (dt : ℚ) (s : PState) : PState :=
  if s.isWallRunning then { s with velocity := { s.velocity with y := -1 } }
  else if ¬ s.isGrounded then
    let vy := s.velocity.y + GRAVITY * dt
    let vy := if vy < TERMINAL_VELOCITY then TERMINAL_VELOCITY else vy
    { s with velocity := { s.velocity with y := vy } }
  else s

/-- Wall query result of `Player.detectWall`. -/
structure WallHit where
  isNearWall : Bool
  normal : Vec3
deriving Repr, DecidableEq

/-- The four probe directions of `Player.detectWall`, in source order. -/
def wallDirections : List Vec3 := [⟨1, 0, 0⟩, ⟨-1, 0, 0⟩, ⟨0, 0, 1⟩, ⟨0, 0, -1⟩]

/-- The extended check box `Player.detectWall` builds for one direction. -/
def wallCheckBox (s : PState) (dir : Vec3) : Box3 :=
  let halfWidth := PLAYER_RADIUS
  let wallCheckDistance : ℚ := 3/10
  ⟨s.position.x - halfWidth +
      (if dir.x > 0 then halfWidth else if dir.x < 0 then -wallCheckDistance else 0),
   s.position.y - s.currentHeight + 1/2,
   s.position.z - halfWidth +
      (if dir.z > 0 then halfWidth else if dir.z < 0 then -wallCheckDistance else 0),
   s.position.x + halfWidth +
      (if dir.x > 0 then wallCheckDistance else if dir.x < 0 then -halfWidth else 0),
   s.position.y - 1/2,
   s.position.z + halfWidth +
      (if dir.z > 0 then wallCheckDistance else if dir.z < 0 then -halfWidth else 0)⟩

/-- `Player.detectWall` (the `Player.js` box variant): probe the four
directions in order; the first obstacle intersection yields a wall whose
normal points away from the probe direction. -/
def detectWall (s : PState) : WallHit :=
  if s.obstacles.isEmpty then ⟨false, ⟨0, 0, 0⟩⟩
  else
    match wallDirections.find? (fun dir =>
        s.obstacles.any (fun ob => (wallCheckBox s dir).intersects ob)) with
    | some dir => ⟨true, ⟨-dir.x, -dir.y, -dir.z⟩⟩
    | none => ⟨false, ⟨0, 0, 0⟩⟩

/-- `Player.startWallRun`: attach to the wall, reset the wall-run clock,
cancel any downward velocity with a small upward boost, and emit the (reused)
jump event. -/
def startWallRun (wallNormal : Vec3) (s : PState) : PState :=
  let s1 := { s with isWallRunning := true, wallNormal := wallNormal, wallRunTime := 0 }
  let s2 :=
    if s1.velocity.y < 0 then { s1 with velocity := { s1.velocity with y := 2 } } else s1
  emit Ev.jump s2

/-- `Player.handleWallRun`: grounded resets the wall-run clock; while wall
running, advance the clock (force-ending at `wallRunMaxTime`), end when the
wall is lost, else redirect velocity along the wall; otherwise try to attach
when moving, off cooldown and near a wall. -/
def handleWallRun (env : JsMath) (dt : ℚ) (s : PState) : PState :=
  if s.isGrounded then
    let s1 := if s.isWallRunning then endWallRun s else s
    { s1 with wallRunTime := 0 }
  else if s.isWallRunning then
    let s1 := { s with wallRunTime := s.wallRunTime + dt }
    if s1.wallRunTime ≥ s1.wallRunMaxTime then endWallRun s1
    else if !(detectWall s1).isNearWall then endWallRun s1
    else
      let f := s1.camForward
      let d := f.x * s1.wallNormal.x + f.y * s1.wallNormal.y + f.z * s1.wallNormal.z
      let wx := f.x - s1.wallNormal.x * d
      let wy := f.y - s1.wallNormal.y * d
      let wz := f.z - s1.wallNormal.z * d
      let len := env.sqrt (wx * wx + wy * wy + wz * wz)
      let dir : Vec3 := ⟨wx / len, wy / len, wz / len⟩
      { s1 with
        wallRunDirection := dir,
        velocity := { s1.velocity with
          x := dir.x * s1.wallRunSpeed, z := dir.z * s1.wallRunSpeed } }
  else if s.wallRunCooldown > 0 then s
  else if !s.isMoving then s
  else
    let w := detectWall s
    if w.isNearWall then startWallRun w.normal s else s

/-- `Player.checkCollision` (the `Player.js` box variant): the player box,
raised by the step height, intersects some obstacle. -/
def checkCollision (s : PState) : Bool :=
  if s.obstacles.isEmpty then false
  else
    let halfWidth := PLAYER_RADIUS
    let stepHeight : ℚ := 7/20
    let playerBox : Box3 :=
      ⟨s.position.x - halfWidth, s.position.y - s.currentHeight + stepHeight,
       s.position.z - halfWidth,
       s.position.x + halfWidth, s.position.y, s.position.z + halfWidth⟩
    s.obstacles.any (fun ob => playerBox.intersects ob)

/-- `Player.applyVelocity`: integrate Y unconditionally, then X and Z one
axis at a time, reverting the move and zeroing that axis on collision. -/
def applyVelocity (dt : ℚ) (s : PState) : PState :=
  let s1 := { s with position := { s.position with y := s.position.y + s.velocity.y * dt } }
  let moveX := s1.velocity.x * dt
  let s2 :=
    if moveX ≠ 0 then
      let t := { s1 with position := { s1.position with x := s1.position.x + moveX } }
      if checkCollision t then
        { t with position := { t.position with x := t.position.x - moveX },
                 velocity := { t.velocity with x := 0 } }
      else t
    else s1
  let moveZ := s2.velocity.z * dt
  if moveZ ≠ 0 then
    let t := { s2 with position := { s2.position with z := s2.position.z + moveZ } }
    if checkCollision t then
      { t with position := { t.position with z := t.position.z - moveZ },
               velocity := { t.velocity with z := 0 } }
    else t
  else s2

/-- `Player.getGroundHeight` (the `Player.js` box variant): the highest top
face among the obstacles intersecting a thin box at the player's feet. -/
def getGroundHeight (s : PState) : Option ℚ :=
  if s.obstacles.isEmpty then none
  else
    let halfWidth := PLAYER_RADIUS
    let feetBox : Box3 :=
      ⟨s.position.x - halfWidth, s.position.y - s.currentHeight - 1/5,
       s.position.z - halfWidth,
       s.position.x + halfWidth, s.position.y - s.currentHeight + 1/10,
       s.position.z + halfWidth⟩
    s.obstacles.foldl
      (fun acc ob =>
        if feetBox.intersects ob then
          match acc with
          | none => some ob.maxy
          | some h => if ob.maxy > h then some ob.maxy else some h
        else acc)
      none

/-- `Player.checkGround` (the `Player.js` variant, no bounce handling): snap
to the floor plane or to the highest obstacle beneath the feet, refreshing
coyote time and emitting `land` on the grounded edge; otherwise go airborne,
clearing the jump buffer when walking off an edge. -/
def checkGround (s : PState) : PState :=
  let wasGrounded := s.isGrounded
  if s.position.y ≤ s.currentHeight then
    let s1 := { s with
      position := { s.position with y := s.currentHeight } }
    let s2 :=
      if s1.velocity.y < (0:ℚ) then { s1 with velocity := { s1.velocity with y := 0 } } else s1
    let s3 := { s2 with isGrounded := true, canJump := true, coyoteTime := COYOTE_TIME }
    if !wasGrounded then emit Ev.land s3 else s3
  else
    match getGroundHeight s with
    | some groundY =>
      if s.position.y ≤ groundY + s.currentHeight + 1/10 then
        let s1 := { s with
          position := { s.position with y := groundY + s.currentHeight } }
        let s2 :=
          if s1.velocity.y < (0:ℚ) then { s1 with velocity := { s1.velocity with y := 0 } } else s1
        let s3 := { s2 with isGrounded := true, canJump := true, coyoteTime := COYOTE_TIME }
        if !wasGrounded then emit Ev.land s3 else s3
      else
        let s1 := { s with isGrounded := false }
        if wasGrounded ∧ s1.velocity.y ≤ (0:ℚ) then { s1 with jumpBufferTime := 0 } else s1
    | none =>
      let s1 := { s with isGrounded := false }
      if wasGrounded ∧ s1.velocity.y ≤ (0:ℚ) then { s1 with jumpBufferTime := 0 } else s1

/-- `Player.checkSprintEvents`: emit sprint start/end exactly on edges. -/
def checkSprintEvents (s : PState) : PState :=
  let s1 :=
    if s.isSprinting && !s.wasSprinting then emit Ev.sprintStart s
    else if !s.isSprinting && s.wasSprinting then emit Ev.sprintEnd s
    else s
  { s1 with wasSprinting := s1.isSprinting }

/-- `Player.checkCrouchSlideEvents`: emit crouch start/end exactly on edges
(slide events are emitted directly by `startSlide`/`endSlide`). -/
def checkCrouchSlideEvents (s : PState) : PState :=
  let s1 :=
    if s.isCrouching && !s.wasCrouching then emit Ev.crouchStart s
    else if !s.isCrouching && s.wasCrouching then emit Ev.crouchEnd s
    else s
  { s1 with wasCrouching := s1.isCrouching, wasSliding := s1.isSliding }

/-- `Player.update`: the per-tick pipeline — timers, crouch/slide, movement,
jump, wall run, gravity, velocity integration, ground check, then the state
edge events (camera-only updates omitted). -/
def update (env : JsMath) (inp : Input) (dt : ℚ) (s : PState) : PState :=
  checkCrouchSlideEvents (checkSprintEvents (checkGround (applyVelocity dt
    (applyGravity dt (handleWallRun env dt (handleJump inp
      (handleMovement env inp dt (handleCrouchSlide env inp dt
        (updateTimers dt s)))))))))

/-- `Player.setPosition`: teleport and zero the velocity. -/
def setPosition (v : Vec3) (s : PState) : PState :=
  { s with position := v, velocity := ⟨0, 0, 0⟩ }

/-! ### Raycast ground check with bounce pads
(the `Player` class of `src/entities/FirstPersonCamera.js`) -/

/-- Result of `Player.getGroundHeightWithInfo` in `FirstPersonCamera.js`:
the highest downward-ray hit below the feet, and whether that hit carries the
`userData.isBouncy` tag with its `bounceForce`. The ray probe itself is a
query against the obstacle meshes; it is abstracted here as this result
record, produced by the probe. -/
structure GroundInfo where
  height : Option ℚ
  isBouncy : Bool
  bounceForce : ℚ
deriving Repr, DecidableEq

/-- The ground info a `BouncePad` surface yields when it is the highest hit:
`BouncePad.build` tags its collision mesh with `userData.isBouncy = true` and
`userData.bounceForce = this.bounceForce` (`src/world/parkour/BouncePad.js`),
and the probe copies those tags into the result. -/
def bouncePadGroundInfo (pad : Platform) (hitY : ℚ) : GroundInfo :=
  ⟨some hitY, true, pad.bounceForce⟩

/-- `Player.checkGround` of `FirstPersonCamera.js`, with the probe result
passed in (the source computes it as `this.getGroundHeightWithInfo()`):
the floor plane at `y ≤ 0` snaps and grounds; a ground hit within snap range
either bounces (bouncy tag while descending: vertical velocity becomes the
tag's force, the body stays airborne, and the reused jump event — not a land
event — is emitted) or grounds normally; otherwise the body is airborne. -/
def fpcCheckGroundWith (s : PState) (groundResult : GroundInfo) : PState :=
  let wasGrounded := s.isGrounded
  if s.position.y ≤ (0:ℚ) then
    let s1 := { s with position := { s.position with y := 0 } }
    let s2 :=
      if s1.velocity.y < (0:ℚ) then { s1 with velocity := { s1.velocity with y := 0 } } else s1
    let s3 := { s2 with isGrounded := true, canJump := true, coyoteTime := COYOTE_TIME }
    if !wasGrounded then emit Ev.land s3 else s3
  else
    match groundResult.height with
    | some h =>
      if s.position.y ≤ h + 1/10 then
        let s1 := { s with position := { s.position with y := h } }
        if groundResult.isBouncy ∧ s1.velocity.y ≤ (0:ℚ) then
          emit Ev.jump { s1 with
            velocity := { s1.velocity with y := groundResult.bounceForce },
            isGrounded := false }
        else
          let s2 :=
            if s1.velocity.y < (0:ℚ) then { s1 with velocity := { s1.velocity with y := 0 } }
            else s1
          let s3 := { s2 with isGrounded := true, canJump := true, coyoteTime := COYOTE_TIME }
          if !wasGrounded then emit Ev.land s3 else s3
      else
        let s1 := { s with isGrounded := false }
        if wasGrounded ∧ s1.velocity.y ≤ (0:ℚ) then { s1 with jumpBufferTime := 0 } else s1
    | none =>
      let s1 := { s with isGrounded := false }
      if wasGrounded ∧ s1.velocity.y ≤ (0:ℚ) then { s1 with jumpBufferTime := 0 } else s1

/-! ### Checkpoint system
(`src/world/parkour/InfiniteWorld.js`, `src/world/parkour/CheckpointPlatform.js`) -/

/-- A `CheckpointPlatform`: identifier, world position of its group, footprint,
thickness (`0.6` in the constructor) and activation flag. -/
structure Checkpoint where
  checkpointId : ℕ
  pos : Vec3
  width : ℚ
  length : ℚ
  height : ℚ
  isActivated : Bool
deriving Repr, DecidableEq

instance : Inhabited Checkpoint := ⟨⟨0, ⟨0, 0, 0⟩, 0, 0, 0, false⟩⟩

/-- `CheckpointPlatform.getRespawnPosition`: the group position raised by
half the platform height plus a fixed `0.5` offset. -/
def cpRespawnPosition (c : Checkpoint) : Vec3 :=
  ⟨c.pos.x, c.pos.y + c.height / 2 + 1/2, c.pos.z⟩

/-- `CheckpointPlatform.activate` (idempotent: early-returns when already
activated, with the same resulting state). -/
def cpActivate (c : Checkpoint) : Checkpoint := { c with isActivated := true }

/-- `CheckpointPlatform.deactivate`. -/
def cpDeactivate (c : Checkpoint) : Checkpoint := { c with isActivated := false }

/-- Replace the element at an index by its image under `f` (identity when the
index is out of range); checkpoints are distinct objects in the source, so an
index stands for object identity. -/
def modifyAt {α : Type} : List α → ℕ → (α → α) → List α
  | [], _, _ => []
  | a :: t, 0, f => f a :: t
  | a :: t, n + 1, f => a :: modifyAt t n f

/-- The checkpoint-system state of `InfiniteWorld`: the checkpoints created by
the generator, the currently active one (by index, for object identity) and
the recorded respawn position. -/
structure WorldCP where
  checkpoints : List Checkpoint
  activeIdx : Option ℕ
  lastCheckpointPosition : Option Vec3
deriving Repr, DecidableEq

/-- `InfiniteWorld.activateCheckpoint`: a no-op when the checkpoint is already
the active one; otherwise deactivate the previous active checkpoint, activate
the new one, and record its respawn position. -/
def activateCheckpoint (w : WorldCP) (i : ℕ) : WorldCP :=
  if w.activeIdx = some i then w
  else
    let cps1 :=
      match w.activeIdx with
      | some j => modifyAt w.checkpoints j cpDeactivate
      | none => w.checkpoints
    let cps2 := modifyAt cps1 i cpActivate
    { checkpoints := cps2,
      activeIdx := some i,
      lastCheckpointPosition := some (cpRespawnPosition (cps2.getD i default)) }

/-- `InfiniteWorld.getRespawnPosition`: the recorded checkpoint respawn
position, or the default spawn `(0, 0.5, 5)` when none is recorded yet. -/
def getRespawnPosition (w : WorldCP) : Vec3 :=
  w.lastCheckpointPosition.getD ⟨0, 1/2, 5⟩

/-- The checkpoint-system invariant: a checkpoint platform is activated
exactly when it is the checkpoint the world holds as active, and the active
index is in range. -/
def CPInv (w : WorldCP) : Prop :=
  (∀ j < w.checkpoints.length,
    ((w.checkpoints.getD j default).isActivated = true ↔ w.activeIdx = some j)) ∧
  (∀ j, w.activeIdx = some j → j < w.checkpoints.length)

/-- At most one checkpoint in the list is activated. -/
def atMostOneActive (w : WorldCP) : Prop :=
  ∀ i < w.checkpoints.length, ∀ j < w.checkpoints.length,
    (w.checkpoints.getD i default).isActivated = true →
    (w.checkpoints.getD j default).isActivated = true → i = j

/-! ### Death and respawn (`src/core/Engine.js`) -/

/-- `Engine.handleParkourDeath`: emit `death`, teleport the player to the
respawn position (`setPosition` also zeroes the velocity, and the velocity is
zeroed once more), force the grounded state, and emit `respawn`. -/
def handleParkourDeath (w : WorldCP) (p : PState) : PState :=
  let p1 := emit Ev.death p
  let p2 := setPosition (getRespawnPosition w) p1
  let p3 := { p2 with velocity := ⟨0, 0, 0⟩, isGrounded := true }
  emit Ev.respawn p3

/-- The death-cooldown decrement of `Engine._update`
(`if (this.deathCooldown > 0) this.deathCooldown -= this.deltaTime`). -/
def cooldownAfter (dt cd : ℚ) : ℚ := if cd > 0 then cd - dt else cd

/-- The death-check fragment of `Engine._update` in parkour mode: decrement
the death cooldown, then — only when the cooldown has elapsed and the player
is below the death threshold (`InfiniteWorld.checkDeath`) — respawn and arm a
fresh `1` second cooldown. The threshold is `PARKOUR.DEATH_Y_THRESHOLD`,
whose definition is not among the sources; it is kept as a parameter
(the engine's own debug log reports it as `-30`). -/
def deathStep (threshold dt : ℚ) (cd : ℚ) (w : WorldCP) (p : PState) : ℚ × PState :=
  let cd1 := cooldownAfter dt cd
  let isDead := p.position.y < threshold
  if cd1 ≤ 0 ∧ isDead then (1, handleParkourDeath w p)
  else (cd1, p)

/-! ### Chunk manager (`src/world/parkour/ChunkManager.js`) -/

/-- A chunk as tracked by `ChunkManager.addChunk`: its longitudinal extent
and its obstacle (collision mesh) list. Obstacles are distinct mesh objects
in the source; they are modelled by identifiers. -/
structure Chunk where
  startZ : ℚ
  endZ : ℚ
  obstacles : List ℕ
deriving Repr, DecidableEq

instance : Inhabited Chunk := ⟨⟨0, 0, []⟩⟩

/-- Generator output as consumed by the manager (`chunkData`). -/
structure ChunkOut where
  endZ : ℚ
  endHeight : ℚ
  obstacles : List ℕ
deriving Repr, DecidableEq

/-- `ChunkManager` state: the live chunks, the streaming-front coordinates
and the aggregated obstacle list. -/
structure CMState where
  chunks : List Chunk
  currentZ : ℚ
  currentHeight : ℚ
  allObstacles : List ℕ
deriving Repr, DecidableEq

/-- `ChunkManager.addChunk`: append the chunk and push its obstacles onto the
aggregate. -/
def addChunkCM (cd : ChunkOut) (startZ : ℚ) (s : CMState) : CMState :=
  { s with
    chunks := s.chunks ++ [⟨startZ, cd.endZ, cd.obstacles⟩],
    allObstacles := s.allObstacles ++ cd.obstacles }

/-- `ChunkManager.generateNextChunk`, with the generator's output passed in
(the generator itself is driven by `Math.random`; see the chunk-generator
embedding above): add the chunk at the current front and advance the front to
its exit. -/
def generateNextChunkCM (cd : ChunkOut) (s : CMState) : CMState :=
  let s1 := addChunkCM cd s.currentZ s
  { s1 with currentZ := cd.endZ, currentHeight := cd.endHeight }

/-- `ChunkManager.disposeChunk`: remove each of the chunk's obstacles from the
aggregate (`indexOf` + `splice`, i.e. first occurrence) and remove the chunk;
a no-op on an out-of-range index (`if (!chunk) return`). -/
def disposeChunkCM (s : CMState) (index : ℕ) : CMState :=
  match s.chunks.get? index with
  | none => s
  | some chunk =>
    { s with
      allObstacles := chunk.obstacles.foldl (fun acc o => acc.erase o) s.allObstacles,
      chunks := s.chunks.eraseIdx index }

/-- `ChunkManager.update`: generate one chunk when the lookahead distance has
shrunk below the window, then dispose every chunk whose exit has fallen
behind the trailing window (indices collected in order, removed in reverse).
`PARKOUR.CHUNK_LENGTH`, `CHUNKS_AHEAD` and `CHUNKS_BEHIND` are parameters
(their defining module is not among the sources). -/
def updateCM (chunkLength chunksAhead chunksBehind : ℚ) (playerZ : ℚ)
    (newChunk : ChunkOut) (s : CMState) : CMState :=
  let s1 :=
    if s.currentZ - playerZ < chunksAhead * chunkLength then generateNextChunkCM newChunk s
    else s
  let idxs := (List.range s1.chunks.length).filter
    (fun i => decide ((s1.chunks.getD i default).endZ < playerZ - chunksBehind * chunkLength))
  idxs.reverse.foldl disposeChunkCM s1

/-- `ChunkManager.reset`: dispose every chunk (front to back), clear the
state, and re-initialise by adding the freshly generated chunks (the start
chunk and the initial lookahead window, again passed in as generator
outputs). -/
def resetCM (newChunks : List ChunkOut) (_s : CMState) : CMState :=
  let cleared : CMState :=
    { chunks := [], currentZ := 0, currentHeight := 0, allObstacles := [] }
  newChunks.foldl (fun t cd => generateNextChunkCM cd t) cleared

/-- The aggregate invariant of `ChunkManager`: `allObstacles` is exactly the
concatenation of the live chunks' obstacle lists. -/
def CMInv (s : CMState) : Prop :=
  s.allObstacles = (s.chunks.map Chunk.obstacles).flatten

/-- The aggregate invariant plus the source's freshness guarantee (every
obstacle mesh is a distinct object, so the aggregate has no duplicates). -/
def CMInvN (s : CMState) : Prop :=
  CMInv s ∧ s.allObstacles.Nodup

/-! ### Shared concrete instances used by witnesses and counterexamples -/

/-- A stub for the host math functions: claims proved below either hold for
every `JsMath` or do not consult it on the evaluated path. -/
def env0 : JsMath := ⟨fun _ => 0, fun _ => 0⟩

/-- A stub whose `sqrt` is exact at `100` (the only point the evaluated path
consults, for a horizontal velocity of `(10, 0)`). -/
def envSqrt100 : JsMath := ⟨fun _ => 0, fun q => if q = 100 then 10 else 0⟩

/-- A stub whose `sqrt` approximates `Math.sqrt` at `72` (the only point the
zigzag pattern consults: `11^2 - 7^2`; `sqrt 72 = 8.485...`). -/
def envSqrt72 : JsMath := ⟨fun _ => 0, fun q => if q = 72 then 17/2 else 0⟩

/-- Concrete `PARKOUR` parameter values for evaluation (the claims under
test do not depend on them). -/
def pk0 : ParkourC := ⟨30, 1/2, 18⟩

/-- A fresh generator state. -/
def gst0 : GenSt := ⟨none, 0, 0⟩

/-- A chunk configuration of length `50` starting at the origin. -/
def cfg50 : ChunkCfg := ⟨0, 50, 0, 0, 0⟩

/-- Input snapshot with no movement and no actions. -/
def noInput : Input := ⟨0, 0, false, false, false, false⟩

/-- Input snapshot with only the jump action just pressed. -/
def jumpInput : Input := ⟨0, 0, false, true, false, false⟩

/-- Input snapshot with only the crouch action just pressed. -/
def crouchInput : Input := ⟨0, 0, false, false, true, false⟩

/-- A grounded player at rest on the floor plane with zero velocity, all
timers at zero and no obstacles (the constructor state after landing). -/
def groundedRestState : PState :=
  { position := ⟨0, 9/5, 0⟩, velocity := ⟨0, 0, 0⟩,
    isGrounded := true, isSprinting := false, isMoving := false,
    isCrouching := false, isSliding := false,
    slideTime := 0, slideCooldown := 0, slideDirection := ⟨0, 0, 0⟩,
    currentHeight := 9/5, canJump := true,
    jumpCooldown := 0, coyoteTime := 0, jumpBufferTime := 0,
    wasSprinting := false, sprintTime := 0, wasCrouching := false, wasSliding := false,
    obstacles := [], isWallRunning := false,
    wallRunTime := 0, wallRunMaxTime := 5, wallRunDirection := ⟨0, 0, 0⟩,
    wallNormal := ⟨0, 0, 0⟩, wallRunCooldown := 0, wallRunSpeed := 10,
    camForward := ⟨0, 0, -1⟩, camRight := ⟨1, 0, 0⟩, events := [] }

/-- An airborne player who has been wall running for `4.95` seconds
(within the `5` second limit). -/
def wallRunningState : PState :=
  { groundedRestState with
    isGrounded := false, isWallRunning := true, wallRunTime := 99/20,
    position := ⟨0, 50, 0⟩ }

/-- A grounded player at rest whose jump buffer holds `0.05` seconds. -/
def bufferedTimerState : PState :=
  { groundedRestState with jumpBufferTime := 1/20 }

/-- A player mid-slide at horizontal velocity `(10, 0, 0)`. -/
def slidingState : PState :=
  { groundedRestState with
    isSliding := true, currentHeight := 1, velocity := ⟨10, 0, 0⟩ }

/-! ### Random streams and the straight pattern -/

/-- A valid random stream: every sample lies in `[0, 1]`
(`Math.random()` yields values in `[0, 1)`). -/
def validStr (str : List ℚ) : Prop := ∀ r ∈ str, 0 ≤ r ∧ r ≤ 1

/-- Relation between consecutive straight-pattern platforms: the edge gap is
in `[MIN_EDGE_GAP, MAX_EDGE_GAP]`, and the later platform's length is in the
pattern's `[8, 12]` range. -/
def straightRel (p q : Platform) : Prop :=
  MIN_EDGE_GAP ≤ edgeGap p q ∧ edgeGap p q ≤ MAX_EDGE_GAP ∧
  8 ≤ q.length ∧ q.length ≤ 12

/-- The longitudinal separation that makes `checkOverlap` false: the later
platform's near edge clears the earlier platform's far edge by at least the
two buffers (`2 * OVERLAP_BUFFER`); the length bound keeps the relation
transitive. -/
def bufSep (p q : Platform) : Prop :=
  p.z + p.length / 2 + 2 * OVERLAP_BUFFER ≤ q.z - q.length / 2 ∧ 0 ≤ q.length

instance : IsTrans Platform bufSep :=
  ⟨fun a b c hab hbc => by
    unfold bufSep at *
    have hM : (0:ℚ) ≤ 2 * OVERLAP_BUFFER := by norm_num [OVERLAP_BUFFER]
    constructor
    · have h1 : b.z - b.length / 2 ≤ b.z + b.length / 2 := by linarith [hab.2]
      linarith [hab.1, hbc.1]
    · exact hbc.2⟩

/-- The per-pattern layout invariant behind chunk-wide non-overlap: the
platform run is `bufSep`-sorted and every platform's near edge lies at or
beyond the pattern's start coordinate. -/
def patOK (z0 : ℚ) (ps : List Platform) : Prop :=
  List.Chain' bufSep ps ∧ ∀ p ∈ ps, z0 ≤ p.z - p.length / 2 ∧ 0 ≤ p.length

/-- The five movement timers of the claim are bounded below by `-b`. -/
def timersBdd (b : ℚ) (s : PState) : Prop :=
  -b < s.jumpCooldown ∧ -b < s.coyoteTime ∧ -b < s.jumpBufferTime ∧
  -b < s.wallRunCooldown ∧ -b < s.slideCooldown

/-- The wall-run fields (`wallRunTime`, `wallRunMaxTime`, `isWallRunning`)
are unchanged between two states. -/
def sameWall (s t : PState) : Prop :=
  t.wallRunTime = s.wallRunTime ∧ t.wallRunMaxTime = s.wallRunMaxTime ∧
  t.isWallRunning = s.isWallRunning

/-- The wall-run clocks are unchanged and the wall-run flag can only have
been cleared, not set. -/
def wallMono (s t : PState) : Prop :=
  t.wallRunTime = s.wallRunTime ∧ t.wallRunMaxTime = s.wallRunMaxTime ∧
  (t.isWallRunning = true → s.isWallRunning = true)

lemma validStr_headD {str : List ℚ} (h : validStr str) :
    0 ≤ str.headD 0 ∧ str.headD 0 ≤ 1 := by
  cases str with
  | nil => norm_num
  | cons a t => exact h a (by simp)

lemma validStr_drop {str : List ℚ} (h : validStr str) (n : ℕ) :
    validStr (str.drop n) :=
  fun r hr => h r (List.mem_of_mem_drop hr)

lemma randomRange_bounds {lo hi r : ℚ} (h0 : 0 ≤ r) (h1 : r ≤ 1) (hlh : lo ≤ hi) :
    lo ≤ randomRange lo hi r ∧ randomRange lo hi r ≤ hi := by
  unfold randomRange
  constructor <;> nlinarith

lemma straightLoop_spec (cfg : ChunkCfg) :
    ∀ (fuel : ℕ) (curZ lastLen : ℚ) (str : List ℚ), validStr str →
      List.Chain' straightRel (straightLoop cfg fuel curZ lastLen str) ∧
      (∀ p ∈ straightLoop cfg fuel curZ lastLen str, 8 ≤ p.length ∧ p.length ≤ 12) ∧
      (lastLen ≠ 0 → ∀ p ∈ (straightLoop cfg fuel curZ lastLen str).head?,
        MIN_EDGE_GAP ≤ (p.z - p.length / 2) - (curZ + lastLen / 2) ∧
        (p.z - p.length / 2) - (curZ + lastLen / 2) ≤ MAX_EDGE_GAP) := by
  intro fuel
  induction fuel with
  | zero =>
    intro curZ lastLen str _
    simp [straightLoop]
  | succ n ih =>
    intro curZ lastLen str hstr
    by_cases hc : curZ < cfg.startZ + cfg.length - 12 - MAX_EDGE_GAP
    · have hr0 := validStr_headD hstr
      have hr1 := validStr_headD (validStr_drop hstr 1)
      have hr2 := validStr_headD (validStr_drop hstr 2)
      have hlen := randomRange_bounds hr0.1 hr0.2 (by norm_num : (8:ℚ) ≤ 12)
      set platLength := randomRange 8 12 (str.headD 0) with hpl
      set platWidth := randomRange 5 8 ((str.drop 1).headD 0) with hpw
      have hplNe : platLength ≠ 0 := by
        intro h
        rw [h] at hlen
        norm_num at hlen
      by_cases hz : lastLen = 0
      · -- first platform: no gap to a previous platform
        have hrec := ih (curZ + platLength / 2) platLength (str.drop 2)
          (validStr_drop hstr 2)
        have hloop : straightLoop cfg (n + 1) curZ lastLen str =
            mkBasic 0 cfg.startHeight (curZ + platLength / 2) platWidth platLength
              cfg.rotation :: straightLoop cfg n (curZ + platLength / 2) platLength
              (str.drop 2) := by
          simp only [straightLoop, if_pos hc, if_pos hz, ← hpl, ← hpw]
        rw [hloop]
        refine ⟨?_, ?_, ?_⟩
        · rw [List.chain'_cons']
          refine ⟨?_, hrec.1⟩
          intro q hq
          have hconn := hrec.2.2 hplNe q hq
          have hqlen := hrec.2.1 q (List.mem_of_mem_head? hq)
          refine ⟨?_, ?_, hqlen.1, hqlen.2⟩ <;>
            · simp only [edgeGap, mkBasic] at *
              linarith [hconn.1, hconn.2]
        · intro p hp
          rcases List.mem_cons.1 hp with h | h
          · subst h; exact ⟨by simpa [mkBasic] using hlen.1, by simpa [mkBasic] using hlen.2⟩
          · exact hrec.2.1 p h
        · intro h; exact absurd hz (by simpa using h)
      · -- later platform: placed by getSafeNextZ
        have hgap := randomRange_bounds hr2.1 hr2.2
          (by norm_num [MIN_EDGE_GAP, MAX_EDGE_GAP] : MIN_EDGE_GAP ≤ MAX_EDGE_GAP)
        set gap := randomRange MIN_EDGE_GAP MAX_EDGE_GAP ((str.drop 2).headD 0) with hgapd
        have hckz : getSafeNextZ curZ lastLen platLength ((str.drop 2).headD 0) =
            curZ + lastLen / 2 + gap + platLength / 2 := by
          simp [getSafeNextZ, hgapd]
        have hrec := ih (curZ + lastLen / 2 + gap + platLength / 2) platLength (str.drop 3)
          (validStr_drop hstr 3)
        have hloop : straightLoop cfg (n + 1) curZ lastLen str =
            mkBasic 0 cfg.startHeight (curZ + lastLen / 2 + gap + platLength / 2)
              platWidth platLength cfg.rotation ::
              straightLoop cfg n (curZ + lastLen / 2 + gap + platLength / 2) platLength
              (str.drop 3) := by
          simp only [straightLoop, if_pos hc, if_neg hz, ← hpl, ← hpw, hckz]
        rw [hloop]
        refine ⟨?_, ?_, ?_⟩
        · rw [List.chain'_cons']
          refine ⟨?_, hrec.1⟩
          intro q hq
          have hconn := hrec.2.2 hplNe q hq
          have hqlen := hrec.2.1 q (List.mem_of_mem_head? hq)
          refine ⟨?_, ?_, hqlen.1, hqlen.2⟩ <;>
            · simp only [edgeGap, mkBasic] at *
              linarith [hconn.1, hconn.2]
        · intro p hp
          rcases List.mem_cons.1 hp with h | h
          · subst h; exact ⟨by simpa [mkBasic] using hlen.1, by simpa [mkBasic] using hlen.2⟩
          · exact hrec.2.1 p h
        · intro _ p hp
          simp only [List.head?_cons, Option.mem_some_iff] at hp
          subst hp
          constructor <;>
            · simp only [mkBasic]
              linarith [hgap.1, hgap.2]
    · have hloop : straightLoop cfg (n + 1) curZ lastLen str = [] := by
        simp only [straightLoop, if_neg hc]
      rw [hloop]
      simp

/-- Claim C1 (amended to the straight pattern; see `C1_counterexample` for
the failure of the chunk-wide statement). In every platform run produced by
`generateStraightPattern` under a valid random stream, the edge gap between
each pair of consecutive platforms lies within
`[MIN_EDGE_GAP, MAX_EDGE_GAP]` and never exceeds the controller's maximum
achievable running-jump distance. -/
theorem C1_straight_gaps (cfg : ChunkCfg) (fuel : ℕ) (str : List ℚ)
    (h : validStr str) :
    List.Chain'
      (fun p q => MIN_EDGE_GAP ≤ edgeGap p q ∧ edgeGap p q ≤ MAX_EDGE_GAP ∧
        edgeGap p q ≤ maxRunningJumpDistance)
      (generateStraightPattern cfg fuel str).1 := by
  have h1 := (straightLoop_spec cfg fuel cfg.startZ 0 str h).1
  refine h1.imp ?_
  intro p q hr
  have hle : MAX_EDGE_GAP ≤ maxRunningJumpDistance := by
    norm_num [MAX_EDGE_GAP, maxRunningJumpDistance, RUN_SPEED, JUMP_FORCE, GRAVITY]
  exact ⟨hr.1, hr.2.1, le_trans hr.2.1 hle⟩

/-- Witness for `C1_straight_gaps` at a concrete configuration and stream. -/
theorem C1_straight_gaps_witness :
    validStr [1/2, 1/2, 1/2, 1/2, 1/2, 1/2] ∧
    List.Chain'
      (fun p q => MIN_EDGE_GAP ≤ edgeGap p q ∧ edgeGap p q ≤ MAX_EDGE_GAP ∧
        edgeGap p q ≤ maxRunningJumpDistance)
      (generateStraightPattern cfg50 4 [1/2, 1/2, 1/2, 1/2, 1/2, 1/2]).1 := by
  have hv : validStr [1/2, 1/2, 1/2, 1/2, 1/2, 1/2] := by
    intro r hr
    simp only [List.mem_cons, List.not_mem_nil, or_false] at hr
    rcases hr with h | h | h | h | h | h <;> subst h <;> norm_num
  exact ⟨hv, C1_straight_gaps cfg50 4 _ hv⟩

/-- Claim C1 as stated fails on the code: a chunk produced by
`generateChunk` under the bounce pattern contains a consecutive platform
pair (the bounce pad and its elevated landing platform) whose edge gap is
the fixed `bounceDistance = 15`, exceeding both `MAX_EDGE_GAP = 9` and the
controller's maximum running-jump distance of `12`. -/
theorem C1_counterexample :
    edgeGap ((generateChunk env0 pk0 10 gst0 cfg50 [6/10]).1.platforms.getD 1 default)
        ((generateChunk env0 pk0 10 gst0 cfg50 [6/10]).1.platforms.getD 2 default) = 15 ∧
    MAX_EDGE_GAP < 15 ∧ maxRunningJumpDistance < 15 := by
  refine ⟨?_, by norm_num [MAX_EDGE_GAP], by norm_num [maxRunningJumpDistance,
    RUN_SPEED, JUMP_FORCE, GRAVITY]⟩
  have hdec : ∀ p : Pat, decide (some p = (none : Option Pat)) = false := fun p => by simp
  have hsel : selectPattern (none : Option Pat) ((3:ℚ)/5) = some Pat.bounceJump := by
    simp only [selectPattern, patternsList]
    norm_num [List.filter, hdec]
    rfl
  simp only [generateChunk, gst0, shouldPlaceCheckpoint, CHECKPOINT_CHUNK_INTERVAL]
  norm_num [generatePatternForChunk, hsel, generateBouncePattern, cfg50,
    MIN_EDGE_GAP, mkBasic, edgeGap]

lemma bufSep_checkOverlap {p q : Platform} (h : bufSep p q) :
    checkOverlap p q = false ∧ checkOverlap q p = false := by
  have hz := h.1
  have hB : OVERLAP_BUFFER = (1:ℚ)/2 := rfl
  rw [hB] at hz
  constructor
  · simp only [checkOverlap, OVERLAP_BUFFER, Bool.and_eq_false_imp,
      Bool.and_eq_true, decide_eq_true_eq, decide_eq_false_iff_not, not_lt]
    intro _ _
    linarith
  · simp only [checkOverlap, OVERLAP_BUFFER, Bool.and_eq_false_imp,
      Bool.and_eq_true, decide_eq_true_eq, decide_eq_false_iff_not, not_lt]
    intro _ hlt
    exfalso
    linarith

lemma patOK_mk {z0 : ℚ} {ps : List Platform} (hch : List.Chain' bufSep ps)
    (hlen : ∀ p ∈ ps, 0 ≤ p.length)
    (hhd : ∀ p ∈ ps.head?, z0 ≤ p.z - p.length / 2) : patOK z0 ps := by
  refine ⟨hch, ?_⟩
  induction ps with
  | nil => simp
  | cons a t ih =>
    have hc := List.chain'_cons'.mp hch
    have ha : z0 ≤ a.z - a.length / 2 := hhd a (by simp)
    have ha0 : 0 ≤ a.length := hlen a (by simp)
    have ht : ∀ p ∈ t, z0 ≤ p.z - p.length / 2 ∧ 0 ≤ p.length := by
      refine ih hc.2 (fun p hp => hlen p (List.mem_cons_of_mem a hp)) ?_
      intro b hb
      have hr := (hc.1 b hb).1
      have hM : (0:ℚ) ≤ 2 * OVERLAP_BUFFER := by norm_num [OVERLAP_BUFFER]
      linarith
    intro p hp
    rcases List.mem_cons.mp hp with hpa | hpt
    · subst hpa; exact ⟨ha, ha0⟩
    · exact ht p hpt

lemma patOK_pairwise {z0 : ℚ} {ps : List Platform} (h : patOK z0 ps) :
    List.Pairwise (fun p q => checkOverlap p q = false ∧ checkOverlap q p = false) ps :=
  (List.chain'_iff_pairwise.mp h.1).imp bufSep_checkOverlap

lemma straightLoop_head (cfg : ChunkCfg) (n : ℕ) (curZ : ℚ) (str : List ℚ) :
    ∀ p ∈ (straightLoop cfg n curZ 0 str).head?, p.z - p.length / 2 = curZ := by
  cases n with
  | zero => simp [straightLoop]
  | succ m =>
    by_cases hc : curZ < cfg.startZ + cfg.length - 12 - MAX_EDGE_GAP
    · simp only [straightLoop, if_pos hc, eq_self_iff_true, if_true]
      intro p hp
      simp only [List.head?_cons, Option.mem_some_iff] at hp
      subst hp
      simp only [mkBasic]
      ring
    · simp [straightLoop, if_neg hc]

lemma patOK_straight (cfg : ChunkCfg) (fuel : ℕ) (str : List ℚ) (h : validStr str) :
    patOK cfg.startZ (generateStraightPattern cfg fuel str).1 := by
  have hs := straightLoop_spec cfg fuel cfg.startZ 0 str h
  refine patOK_mk ?_ ?_ ?_
  · refine hs.1.imp ?_
    intro p q hr
    unfold straightRel edgeGap at hr
    have hM : (2:ℚ) * OVERLAP_BUFFER ≤ MIN_EDGE_GAP := by
      norm_num [OVERLAP_BUFFER, MIN_EDGE_GAP]
    exact ⟨by linarith [hr.1], by linarith [hr.2.2.1]⟩
  · intro p hp
    linarith [(hs.2.1 p hp).1]
  · intro p hp
    exact (straightLoop_head cfg fuel cfg.startZ str p hp).ge

lemma steppingLoop_spec (env : JsMath) (pk : ParkourC) (cfg : ChunkCfg) :
    ∀ (count i : ℕ) (curZ curH lastLen lastX : ℚ) (str : List ℚ), validStr str →
      List.Chain' bufSep (steppingLoop env pk cfg count i curZ curH lastLen lastX str).1 ∧
      (∀ p ∈ (steppingLoop env pk cfg count i curZ curH lastLen lastX str).1,
        5 ≤ p.length ∧ p.length ≤ 7) ∧
      (∀ p ∈ (steppingLoop env pk cfg count i curZ curH lastLen lastX str).1.head?,
        (lastLen = 0 → p.z - p.length / 2 = curZ) ∧
        (lastLen ≠ 0 → curZ + lastLen / 2 + 7/2 ≤ p.z - p.length / 2)) := by
  intro count
  induction count with
  | zero =>
    intro i curZ curH lastLen lastX str _
    simp [steppingLoop]
  | succ n ih =>
    intro i curZ curH lastLen lastX str hstr
    by_cases hc : curZ < cfg.startZ + cfg.length - 7 - MIN_EDGE_GAP
    · have hr1 := validStr_headD (validStr_drop hstr 1)
      have hlen := randomRange_bounds hr1.1 hr1.2 (by norm_num : (5:ℚ) ≤ 7)
      set stoneWidth := randomRange 5 7 (str.headD 0) with hsw
      set stoneLength := randomRange 5 7 ((str.drop 1).headD 0) with hsl
      have hslNe : stoneLength ≠ 0 := by
        intro hzz
        rw [hzz] at hlen
        norm_num at hlen
      by_cases hz : lastLen = 0
      · have hrec := ih (i + 1) (curZ + stoneLength / 2)
          (max 0 (min pk.HEIGHT_MAX (curH + randomRange (-1/2) 1 ((str.drop 3).headD 0))))
          stoneLength
          ((if i % 2 = 0 then 1 else -1) * randomRange 3 5 ((str.drop 2).headD 0))
          ((str.drop 3).drop 1) (validStr_drop (validStr_drop hstr 3) 1)
        have hloop : (steppingLoop env pk cfg (n + 1) i curZ curH lastLen lastX str).1 =
            mkBasic ((if i % 2 = 0 then 1 else -1) * randomRange 3 5 ((str.drop 2).headD 0))
              (max 0 (min pk.HEIGHT_MAX (curH + randomRange (-1/2) 1 ((str.drop 3).headD 0))))
              (curZ + stoneLength / 2) stoneWidth stoneLength cfg.rotation ::
            (steppingLoop env pk cfg n (i + 1) (curZ + stoneLength / 2)
              (max 0 (min pk.HEIGHT_MAX (curH + randomRange (-1/2) 1 ((str.drop 3).headD 0))))
              stoneLength
              ((if i % 2 = 0 then 1 else -1) * randomRange 3 5 ((str.drop 2).headD 0))
              ((str.drop 3).drop 1)).1 := by
          simp only [steppingLoop, if_pos hc, if_pos hz, ← hsw, ← hsl]
        rw [hloop]
        refine ⟨?_, ?_, ?_⟩
        · rw [List.chain'_cons']
          refine ⟨?_, hrec.1⟩
          intro q hq
          have hconn := (hrec.2.2 q hq).2 hslNe
          have hqlen := hrec.2.1 q (List.mem_of_mem_head? hq)
          refine ⟨?_, by linarith [hqlen.1]⟩
          simp only [mkBasic]
          norm_num [OVERLAP_BUFFER]
          linarith
        · intro p hp
          rcases List.mem_cons.1 hp with hh | hh
          · subst hh
            exact ⟨by simpa [mkBasic] using hlen.1, by simpa [mkBasic] using hlen.2⟩
          · exact hrec.2.1 p hh
        · intro p hp
          simp only [List.head?_cons, Option.mem_some_iff] at hp
          subst hp
          refine ⟨fun _ => ?_, fun hne => absurd hz hne⟩
          simp only [mkBasic]
          ring
      · have hr3 := validStr_headD (validStr_drop hstr 3)
        have hgap := randomRange_bounds hr3.1 hr3.2
          (le_max_left (MIN_EDGE_GAP * (7/10))
            (min (MAX_EDGE_GAP * (8/10))
              (env.sqrt (10 * 10 -
                |(if i % 2 = 0 then 1 else -1) * randomRange 3 5 ((str.drop 2).headD 0) - lastX| *
                |(if i % 2 = 0 then 1 else -1) * randomRange 3 5 ((str.drop 2).headD 0) - lastX|))))
        set gap := randomRange (MIN_EDGE_GAP * (7/10))
          (max (MIN_EDGE_GAP * (7/10))
            (min (MAX_EDGE_GAP * (8/10))
              (env.sqrt (10 * 10 -
                |(if i % 2 = 0 then 1 else -1) * randomRange 3 5 ((str.drop 2).headD 0) - lastX| *
                |(if i % 2 = 0 then 1 else -1) * randomRange 3 5 ((str.drop 2).headD 0) - lastX|))))
          ((str.drop 3).headD 0) with hgapd
        have hrec := ih (i + 1) (curZ + lastLen / 2 + gap + stoneLength / 2)
          (max 0 (min pk.HEIGHT_MAX (curH + randomRange (-1/2) 1 ((str.drop 4).headD 0))))
          stoneLength
          ((if i % 2 = 0 then 1 else -1) * randomRange 3 5 ((str.drop 2).headD 0))
          ((str.drop 4).drop 1) (validStr_drop (validStr_drop hstr 4) 1)
        have hloop : (steppingLoop env pk cfg (n + 1) i curZ curH lastLen lastX str).1 =
            mkBasic ((if i % 2 = 0 then 1 else -1) * randomRange 3 5 ((str.drop 2).headD 0))
              (max 0 (min pk.HEIGHT_MAX (curH + randomRange (-1/2) 1 ((str.drop 4).headD 0))))
              (curZ + lastLen / 2 + gap + stoneLength / 2) stoneWidth stoneLength cfg.rotation ::
            (steppingLoop env pk cfg n (i + 1) (curZ + lastLen / 2 + gap + stoneLength / 2)
              (max 0 (min pk.HEIGHT_MAX (curH + randomRange (-1/2) 1 ((str.drop 4).headD 0))))
              stoneLength
              ((if i % 2 = 0 then 1 else -1) * randomRange 3 5 ((str.drop 2).headD 0))
              ((str.drop 4).drop 1)).1 := by
          simp only [steppingLoop, if_pos hc, if_neg hz, ← hsw, ← hsl, ← hgapd]
        rw [hloop]
        refine ⟨?_, ?_, ?_⟩
        · rw [List.chain'_cons']
          refine ⟨?_, hrec.1⟩
          intro q hq
          have hconn := (hrec.2.2 q hq).2 hslNe
          have hqlen := hrec.2.1 q (List.mem_of_mem_head? hq)
          refine ⟨?_, by linarith [hqlen.1]⟩
          simp only [mkBasic]
          norm_num [OVERLAP_BUFFER]
          linarith
        · intro p hp
          rcases List.mem_cons.1 hp with hh | hh
          · subst hh
            exact ⟨by simpa [mkBasic] using hlen.1, by simpa [mkBasic] using hlen.2⟩
          · exact hrec.2.1 p hh
        · intro p hp
          simp only [List.head?_cons, Option.mem_some_iff] at hp
          subst hp
          refine ⟨fun hzz => absurd hzz hz, fun _ => ?_⟩
          have hmin : MIN_EDGE_GAP * (7/10) = (7:ℚ)/2 := by norm_num [MIN_EDGE_GAP]
          simp only [mkBasic]
          rw [hmin] at hgap
          linarith [hgap.1]
    · have hloop : (steppingLoop env pk cfg (n + 1) i curZ curH lastLen lastX str).1 = [] := by
        simp only [steppingLoop, if_neg hc]
      rw [hloop]
      simp

lemma patOK_stepping (env : JsMath) (pk : ParkourC) (cfg : ChunkCfg) (str : List ℚ)
    (h : validStr str) :
    patOK cfg.startZ (generateSteppingStonesPattern env pk cfg str).1 := by
  unfold generateSteppingStonesPattern
  dsimp only
  have hs := steppingLoop_spec env pk cfg
    (Int.floor (cfg.length / (5 + (MIN_EDGE_GAP + MAX_EDGE_GAP) / 2))).toNat
    0 cfg.startZ cfg.startHeight 0 0 str h
  refine patOK_mk hs.1 (fun p hp => by linarith [(hs.2.1 p hp).1]) ?_
  intro p hp
  exact ((hs.2.2 p hp).1 rfl).ge

lemma zigzagLoop_spec (cfg : ChunkCfg) (direction minZGap maxZGap : ℚ)
    (h1 : 1 ≤ minZGap) (hlh : minZGap ≤ maxZGap) :
    ∀ (count i : ℕ) (curZ lastLen : ℚ) (str : List ℚ), validStr str →
      List.Chain' bufSep (zigzagLoop cfg direction minZGap maxZGap count i curZ lastLen str) ∧
      (∀ p ∈ zigzagLoop cfg direction minZGap maxZGap count i curZ lastLen str,
        p.length = 8) ∧
      (∀ p ∈ (zigzagLoop cfg direction minZGap maxZGap count i curZ lastLen str).head?,
        (lastLen = 0 → p.z - p.length / 2 = curZ) ∧
        (lastLen ≠ 0 → curZ + lastLen / 2 + minZGap ≤ p.z - p.length / 2)) := by
  intro count
  induction count with
  | zero =>
    intro i curZ lastLen str _
    simp [zigzagLoop]
  | succ n ih =>
    intro i curZ lastLen str hstr
    by_cases hc : curZ < cfg.startZ + cfg.length - 8 - minZGap
    · by_cases hz : lastLen = 0
      · have hrec := ih (i + 1) (curZ + 8 / 2) 8 str hstr
        have hloop : zigzagLoop cfg direction minZGap maxZGap (n + 1) i curZ lastLen str =
            mkBasic (direction * (if i % 2 = 0 then 7 / 2 else -(7 / 2))) cfg.startHeight
              (curZ + 8 / 2) 6 8 cfg.rotation ::
            zigzagLoop cfg direction minZGap maxZGap n (i + 1) (curZ + 8 / 2) 8 str := by
          simp only [zigzagLoop, if_pos hc, if_pos hz]
        rw [hloop]
        refine ⟨?_, ?_, ?_⟩
        · rw [List.chain'_cons']
          refine ⟨?_, hrec.1⟩
          intro q hq
          have hconn := (hrec.2.2 q hq).2 (by norm_num)
          have hqlen := hrec.2.1 q (List.mem_of_mem_head? hq)
          refine ⟨?_, by rw [hqlen]; norm_num⟩
          simp only [mkBasic]
          norm_num [OVERLAP_BUFFER]
          linarith
        · intro p hp
          rcases List.mem_cons.1 hp with hh | hh
          · subst hh; simp [mkBasic]
          · exact hrec.2.1 p hh
        · intro p hp
          simp only [List.head?_cons, Option.mem_some_iff] at hp
          subst hp
          refine ⟨fun _ => ?_, fun hne => absurd hz hne⟩
          simp only [mkBasic]
          ring
      · have hr0 := validStr_headD hstr
        have hgap := randomRange_bounds hr0.1 hr0.2 hlh
        set gap := randomRange minZGap maxZGap (str.headD 0) with hgapd
        have hrec := ih (i + 1) (curZ + lastLen / 2 + gap + 8 / 2) 8 (str.drop 1)
          (validStr_drop hstr 1)
        have hloop : zigzagLoop cfg direction minZGap maxZGap (n + 1) i curZ lastLen str =
            mkBasic (direction * (if i % 2 = 0 then 7 / 2 else -(7 / 2))) cfg.startHeight
              (curZ + lastLen / 2 + gap + 8 / 2) 6 8 cfg.rotation ::
            zigzagLoop cfg direction minZGap maxZGap n (i + 1)
              (curZ + lastLen / 2 + gap + 8 / 2) 8 (str.drop 1) := by
          simp only [zigzagLoop, if_pos hc, if_neg hz, ← hgapd]
        rw [hloop]
        refine ⟨?_, ?_, ?_⟩
        · rw [List.chain'_cons']
          refine ⟨?_, hrec.1⟩
          intro q hq
          have hconn := (hrec.2.2 q hq).2 (by norm_num)
          have hqlen := hrec.2.1 q (List.mem_of_mem_head? hq)
          refine ⟨?_, by rw [hqlen]; norm_num⟩
          simp only [mkBasic]
          norm_num [OVERLAP_BUFFER]
          linarith
        · intro p hp
          rcases List.mem_cons.1 hp with hh | hh
          · subst hh; simp [mkBasic]
          · exact hrec.2.1 p hh
        · intro p hp
          simp only [List.head?_cons, Option.mem_some_iff] at hp
          subst hp
          refine ⟨fun hzz => absurd hzz hz, fun _ => ?_⟩
          simp only [mkBasic]
          linarith [hgap.1]
    · have hloop : zigzagLoop cfg direction minZGap maxZGap (n + 1) i curZ lastLen str = [] := by
        simp only [zigzagLoop, if_neg hc]
      rw [hloop]
      simp

lemma patOK_zigzag (env : JsMath) (cfg : ChunkCfg) (str : List ℚ) (h : validStr str)
    (hsq : (7:ℚ) ≤ env.sqrt (11 * 11 - 7 * 7)) :
    patOK cfg.startZ (generateZigzagPattern env cfg str).1 := by
  unfold generateZigzagPattern
  dsimp only
  rw [min_eq_left hsq]
  have hs := zigzagLoop_spec cfg (if str.headD 0 > 1/2 then 1 else -1) 4 7
    (by norm_num) (by norm_num)
    (Int.floor ((cfg.length - 8) / (8 + (4 + 7) / 2))).toNat 0 cfg.startZ 0 (str.drop 1)
    (validStr_drop h 1)
  refine patOK_mk hs.1 (fun p hp => by rw [hs.2.1 p hp]; norm_num) ?_
  intro p hp
  exact ((hs.2.2 p hp).1 rfl).ge

lemma patOK_bounce (pk : ParkourC) (cfg : ChunkCfg) :
    patOK cfg.startZ (generateBouncePattern pk cfg).1 := by
  unfold generateBouncePattern
  dsimp only
  split
  · refine ⟨?_, ?_⟩
    · simp only [List.chain'_cons, List.chain'_singleton, and_true]
      refine ⟨⟨?_, ?_⟩, ⟨?_, ?_⟩, ⟨?_, ?_⟩⟩ <;>
        · simp only [mkBasic]
          norm_num [OVERLAP_BUFFER, MIN_EDGE_GAP]
    · intro p hp
      simp only [List.mem_cons, List.not_mem_nil, or_false] at hp
      rcases hp with hh | hh | hh | hh <;>
        · subst hh
          simp only [mkBasic]
          norm_num [MIN_EDGE_GAP] <;> linarith
  · refine ⟨?_, ?_⟩
    · simp only [List.chain'_cons, List.chain'_singleton, and_true]
      refine ⟨⟨?_, ?_⟩, ⟨?_, ?_⟩⟩ <;>
        · simp only [mkBasic]
          norm_num [OVERLAP_BUFFER, MIN_EDGE_GAP]
    · intro p hp
      simp only [List.mem_cons, List.not_mem_nil, or_false] at hp
      rcases hp with hh | hh | hh <;>
        · subst hh
          simp only [mkBasic]
          norm_num [MIN_EDGE_GAP] <;> linarith

lemma patOK_wallrun (cfg : ChunkCfg) (str : List ℚ) :
    patOK cfg.startZ (generateWallRunPattern cfg str).1 := by
  unfold generateWallRunPattern
  dsimp only
  split <;> split
  · refine ⟨?_, ?_⟩
    · simp only [List.chain'_cons, List.chain'_singleton, and_true]
      refine ⟨⟨?_, ?_⟩, ⟨?_, ?_⟩, ⟨?_, ?_⟩⟩ <;>
        · simp only [mkBasic]
          norm_num [OVERLAP_BUFFER, MIN_EDGE_GAP, WALL_RUN_APPROACH]
    · intro p hp
      simp only [List.mem_cons, List.not_mem_nil, or_false] at hp
      rcases hp with hh | hh | hh | hh <;>
        · subst hh
          simp only [mkBasic]
          norm_num [MIN_EDGE_GAP, WALL_RUN_APPROACH] <;> linarith
  · refine ⟨?_, ?_⟩
    · simp only [List.chain'_cons, List.chain'_singleton, and_true]
      refine ⟨⟨?_, ?_⟩, ⟨?_, ?_⟩⟩ <;>
        · simp only [mkBasic]
          norm_num [OVERLAP_BUFFER, MIN_EDGE_GAP, WALL_RUN_APPROACH]
    · intro p hp
      simp only [List.mem_cons, List.not_mem_nil, or_false] at hp
      rcases hp with hh | hh | hh <;>
        · subst hh
          simp only [mkBasic]
          norm_num [MIN_EDGE_GAP, WALL_RUN_APPROACH] <;> linarith
  · refine ⟨?_, ?_⟩
    · simp only [List.chain'_cons, List.chain'_singleton, and_true]
      refine ⟨⟨?_, ?_⟩, ⟨?_, ?_⟩, ⟨?_, ?_⟩⟩ <;>
        · simp only [mkBasic]
          norm_num [OVERLAP_BUFFER, MIN_EDGE_GAP, WALL_RUN_APPROACH]
    · intro p hp
      simp only [List.mem_cons, List.not_mem_nil, or_false] at hp
      rcases hp with hh | hh | hh | hh <;>
        · subst hh
          simp only [mkBasic]
          norm_num [MIN_EDGE_GAP, WALL_RUN_APPROACH] <;> linarith
  · refine ⟨?_, ?_⟩
    · simp only [List.chain'_cons, List.chain'_singleton, and_true]
      refine ⟨⟨?_, ?_⟩, ⟨?_, ?_⟩⟩ <;>
        · simp only [mkBasic]
          norm_num [OVERLAP_BUFFER, MIN_EDGE_GAP, WALL_RUN_APPROACH]
    · intro p hp
      simp only [List.mem_cons, List.not_mem_nil, or_false] at hp
      rcases hp with hh | hh | hh <;>
        · subst hh
          simp only [mkBasic]
          norm_num [MIN_EDGE_GAP, WALL_RUN_APPROACH] <;> linarith

lemma patOK_pattern (env : JsMath) (pk : ParkourC) (fuel : ℕ) (gst : GenSt)
    (cfg : ChunkCfg) (str : List ℚ) (h : validStr str)
    (hsq : (7:ℚ) ≤ env.sqrt (11 * 11 - 7 * 7))
    (hup : selectPattern gst.lastPattern (str.headD 0) ≠ some Pat.rampUp)
    (hdown : selectPattern gst.lastPattern (str.headD 0) ≠ some Pat.rampDown) :
    patOK cfg.startZ (generatePatternForChunk env pk fuel gst cfg str).1.1 := by
  have hstr' := validStr_drop h 1
  cases hp : selectPattern gst.lastPattern (str.headD 0) with
  | none =>
    simpa only [generatePatternForChunk, hp] using patOK_straight cfg fuel (str.drop 1) hstr'
  | some pat =>
    cases pat with
    | straight =>
      simpa only [generatePatternForChunk, hp] using patOK_straight cfg fuel (str.drop 1) hstr'
    | steppingStones =>
      simpa only [generatePatternForChunk, hp] using patOK_stepping env pk cfg (str.drop 1) hstr'
    | rampUp => exact absurd hp hup
    | rampDown => exact absurd hp hdown
    | bounceJump =>
      simpa only [generatePatternForChunk, hp] using patOK_bounce pk cfg
    | wallRun =>
      simpa only [generatePatternForChunk, hp] using patOK_wallrun cfg (str.drop 1)
    | zigzag =>
      simpa only [generatePatternForChunk, hp] using patOK_zigzag env cfg (str.drop 1) hstr' hsq

/-- Claim C2 (amended to exclude the ramp patterns; see `C2_counterexample`
for the failure on ramp chunks). For every chunk produced by `generateChunk`
under a valid random stream — including checkpoint-prefixed chunks — whose
selected pattern is not one of the two ramp patterns, and given that the
square-root stub honours `Math.sqrt(72) ≥ 7` (the one point the zigzag
pattern consults), no two distinct platforms of the chunk have intersecting
buffered bounding boxes, in either argument order of `checkOverlap`. -/
theorem C2_chunk_no_overlap (env : JsMath) (pk : ParkourC) (fuel : ℕ)
    (gst : GenSt) (cfg : ChunkCfg) (str : List ℚ) (h : validStr str)
    (hsq : (7:ℚ) ≤ env.sqrt (11 * 11 - 7 * 7))
    (hup : selectPattern gst.lastPattern (str.headD 0) ≠ some Pat.rampUp)
    (hdown : selectPattern gst.lastPattern (str.headD 0) ≠ some Pat.rampDown) :
    List.Pairwise (fun p q => checkOverlap p q = false ∧ checkOverlap q p = false)
      (generateChunk env pk fuel gst cfg str).1.platforms := by
  unfold generateChunk
  dsimp only
  split
  · have hOK := patOK_pattern env pk fuel
      ⟨gst.lastPattern, gst.chunkCount + 1, gst.checkpointCount + 1⟩
      ⟨cfg.startZ + CHECKPOINT_LENGTH / 2 + CHECKPOINT_LENGTH / 2 + MIN_EDGE_GAP,
        cfg.length - (CHECKPOINT_LENGTH + MIN_EDGE_GAP), cfg.startHeight,
        cfg.rotation, cfg.curveAmount⟩
      str h hsq hup hdown
    rw [List.pairwise_cons]
    constructor
    · intro p hp
      have h2 := hOK.2 p hp
      apply bufSep_checkOverlap
      refine ⟨?_, h2.2⟩
      have h21 := h2.1
      dsimp only at h21 ⊢
      norm_num [CHECKPOINT_LENGTH, MIN_EDGE_GAP, OVERLAP_BUFFER] at h21 ⊢
      linarith
    · exact patOK_pairwise hOK
  · exact patOK_pairwise (patOK_pattern env pk fuel
      ⟨gst.lastPattern, gst.chunkCount + 1, gst.checkpointCount⟩ cfg str h hsq hup hdown)

/-- Witness for `C2_chunk_no_overlap`: a bounce-pattern chunk from a fresh
generator state under the stream `[0.6]`. -/
theorem C2_chunk_no_overlap_witness :
    validStr [3/5] ∧
    selectPattern gst0.lastPattern (([3/5] : List ℚ).headD 0) ≠ some Pat.rampUp ∧
    selectPattern gst0.lastPattern (([3/5] : List ℚ).headD 0) ≠ some Pat.rampDown ∧
    (7:ℚ) ≤ envSqrt72.sqrt (11 * 11 - 7 * 7) ∧
    List.Pairwise (fun p q => checkOverlap p q = false ∧ checkOverlap q p = false)
      (generateChunk envSqrt72 pk0 4 gst0 cfg50 [3/5]).1.platforms := by
  have hv : validStr [3/5] := by
    intro r hr
    simp only [List.mem_cons, List.not_mem_nil, or_false] at hr
    subst hr
    norm_num
  have hdec : ∀ p : Pat, decide (some p = (none : Option Pat)) = false := fun p => by simp
  have hsel : selectPattern (none : Option Pat) ((3:ℚ)/5) = some Pat.bounceJump := by
    simp only [selectPattern, patternsList]
    norm_num [List.filter, hdec]
    rfl
  have hup : selectPattern gst0.lastPattern (([3/5] : List ℚ).headD 0) ≠ some Pat.rampUp := by
    show selectPattern (none : Option Pat) ((3:ℚ)/5) ≠ some Pat.rampUp
    rw [hsel]
    simp
  have hdown : selectPattern gst0.lastPattern (([3/5] : List ℚ).headD 0) ≠ some Pat.rampDown := by
    show selectPattern (none : Option Pat) ((3:ℚ)/5) ≠ some Pat.rampDown
    rw [hsel]
    simp
  have hsq : (7:ℚ) ≤ envSqrt72.sqrt (11 * 11 - 7 * 7) := by norm_num [envSqrt72]
  exact ⟨hv, hup, hdown, hsq,
    C2_chunk_no_overlap envSqrt72 pk0 4 gst0 cfg50 [3/5] hv hsq hup hdown⟩

/-- Claim C2 as stated fails on the code: in a chunk produced by
`generateChunk` under the ramp pattern, the ramp deliberately overlaps its
approach platform (the `connectionOverlap` of `generateRampPattern`), so
`checkOverlap` reports an intersection of the buffered boxes. -/
theorem C2_counterexample :
    checkOverlap ((generateChunk env0 pk0 10 gst0 cfg50 [3/10]).1.platforms.getD 0 default)
      ((generateChunk env0 pk0 10 gst0 cfg50 [3/10]).1.platforms.getD 1 default) = true := by
  have hdec : ∀ p : Pat, decide (some p = (none : Option Pat)) = false := fun p => by simp
  have hsel : selectPattern (none : Option Pat) ((3:ℚ)/10) = some Pat.rampUp := by
    simp only [selectPattern, patternsList]
    norm_num [List.filter, hdec]
    rfl
  simp only [generateChunk, gst0, shouldPlaceCheckpoint, CHECKPOINT_CHUNK_INTERVAL]
  norm_num [generatePatternForChunk, hsel, generateRampPattern, cfg50,
    MIN_EDGE_GAP, OVERLAP_BUFFER, mkBasic, checkOverlap]

/-! ### Checkpoint exclusivity (C7) -/

lemma modifyAt_length {α : Type} (l : List α) (n : ℕ) (f : α → α) :
    (modifyAt l n f).length = l.length := by
  induction l generalizing n with
  | nil => rfl
  | cons a t ih =>
    cases n with
    | zero => rfl
    | succ m => simpa [modifyAt] using ih m

lemma getD_modifyAt_eq {α : Type} (l : List α) (n : ℕ) (f : α → α) (d : α)
    (h : n < l.length) : (modifyAt l n f).getD n d = f (l.getD n d) := by
  induction l generalizing n with
  | nil => simp at h
  | cons a t ih =>
    cases n with
    | zero => rfl
    | succ m =>
      simp only [modifyAt, List.getD_cons_succ]
      exact ih m (by simpa using h)

lemma getD_modifyAt_ne {α : Type} (l : List α) (n m : ℕ) (f : α → α) (d : α)
    (h : m ≠ n) : (modifyAt l n f).getD m d = l.getD m d := by
  induction l generalizing n m with
  | nil => rfl
  | cons a t ih =>
    cases n with
    | zero =>
      cases m with
      | zero => exact absurd rfl h
      | succ k => rfl
    | succ n' =>
      cases m with
      | zero => rfl
      | succ k =>
        simp only [modifyAt, List.getD_cons_succ]
        exact ih n' k (fun he => h (by omega))

lemma cpInv_atMostOne {w : WorldCP} (h : CPInv w) : atMostOneActive w := by
  intro i hi j hj ha hb
  have h1 := (h.1 i hi).mp ha
  have h2 := (h.1 j hj).mp hb
  rw [h1] at h2
  exact Option.some_inj.mp h2

/-- Claim C7: at most one checkpoint is active at any time —
`activateCheckpoint` preserves the exclusivity invariant (deactivating the
previously active checkpoint in the same operation), is a no-op when the
checkpoint is already active, and records the respawn coordinate as the
checkpoint's group position raised by `height/2 + 0.5`. -/
theorem C7_checkpoint_exclusive (w : WorldCP) (i : ℕ)
    (hInv : CPInv w) (hi : i < w.checkpoints.length) :
    CPInv (activateCheckpoint w i) ∧
    atMostOneActive (activateCheckpoint w i) ∧
    (w.activeIdx = some i → activateCheckpoint w i = w) ∧
    (w.activeIdx ≠ some i →
      (activateCheckpoint w i).lastCheckpointPosition =
        some ⟨(w.checkpoints.getD i default).pos.x,
              (w.checkpoints.getD i default).pos.y +
                (w.checkpoints.getD i default).height / 2 + 1/2,
              (w.checkpoints.getD i default).pos.z⟩) := by
  by_cases hcase : w.activeIdx = some i
  · have hid : activateCheckpoint w i = w := by
      simp [activateCheckpoint, hcase]
    refine ⟨by rw [hid]; exact hInv, by rw [hid]; exact cpInv_atMostOne hInv,
      fun _ => hid, fun hne => absurd hcase hne⟩
  · have hres : activateCheckpoint w i =
        { checkpoints :=
            modifyAt
              (match w.activeIdx with
               | some j => modifyAt w.checkpoints j cpDeactivate
               | none => w.checkpoints) i cpActivate,
          activeIdx := some i,
          lastCheckpointPosition :=
            some (cpRespawnPosition
              ((modifyAt
                (match w.activeIdx with
                 | some j => modifyAt w.checkpoints j cpDeactivate
                 | none => w.checkpoints) i cpActivate).getD i default)) } := by
      simp [activateCheckpoint, hcase]
    -- the checkpoint list before the final activation
    rcases hact : w.activeIdx with _ | j
    all_goals rw [hact] at hres
    · -- no previously active checkpoint
      have hlen : (modifyAt w.checkpoints i cpActivate).length = w.checkpoints.length :=
        modifyAt_length _ _ _
      have hInv' : CPInv (activateCheckpoint w i) := by
        rw [hres]
        constructor
        · intro k hk
          rw [hlen] at hk
          by_cases hki : k = i
          · subst hki
            rw [getD_modifyAt_eq _ _ _ _ hk]
            simp [cpActivate]
          · rw [getD_modifyAt_ne _ _ _ _ _ hki]
            simp only
            constructor
            · intro hA
              have := (hInv.1 k hk).mp hA
              rw [hact] at this
              exact absurd this (by simp)
            · intro hsome
              exact absurd (Option.some_inj.mp hsome).symm hki
        · intro k hk
          simp only at hk
          rw [hlen]
          exact (Option.some_inj.mp hk) ▸ hi
      refine ⟨hInv', cpInv_atMostOne hInv',
        fun he => absurd he (by rw [hact] at hcase; exact hcase), fun _ => ?_⟩
      rw [hres]
      simp only
      have hgd : (modifyAt w.checkpoints i cpActivate).getD i default =
          cpActivate (w.checkpoints.getD i default) :=
        getD_modifyAt_eq _ _ _ _ hi
      rw [hgd]
      simp [cpRespawnPosition, cpActivate]
    · -- checkpoint `j` was active and gets deactivated first
      have hji : j ≠ i := fun he => hcase (by rw [hact, he])
      have hlen1 : (modifyAt w.checkpoints j cpDeactivate).length = w.checkpoints.length :=
        modifyAt_length _ _ _
      have hlen2 : (modifyAt (modifyAt w.checkpoints j cpDeactivate) i cpActivate).length =
          w.checkpoints.length := by rw [modifyAt_length, hlen1]
      have hInv' : CPInv (activateCheckpoint w i) := by
        rw [hres]
        constructor
        · intro k hk
          rw [hlen2] at hk
          by_cases hki : k = i
          · subst hki
            rw [getD_modifyAt_eq _ _ _ _ (by rw [hlen1]; exact hk)]
            simp [cpActivate]
          · rw [getD_modifyAt_ne _ _ _ _ _ hki]
            by_cases hkj : k = j
            · subst hkj
              rw [getD_modifyAt_eq _ _ _ _ hk]
              simp only [cpDeactivate]
              constructor
              · intro hA
                exact absurd hA (by simp)
              · intro hsome
                exact absurd (Option.some_inj.mp hsome).symm hki
            · rw [getD_modifyAt_ne _ _ _ _ _ hkj]
              simp only
              constructor
              · intro hA
                have := (hInv.1 k hk).mp hA
                rw [hact] at this
                exact absurd (Option.some_inj.mp this).symm hkj
              · intro hsome
                exact absurd (Option.some_inj.mp hsome).symm hki
        · intro k hk
          simp only at hk
          rw [hlen2]
          exact (Option.some_inj.mp hk) ▸ hi
      refine ⟨hInv', cpInv_atMostOne hInv',
        fun he => absurd he (by rw [hact] at hcase; exact hcase), fun _ => ?_⟩
      rw [hres]
      simp only
      have hgd : (modifyAt (modifyAt w.checkpoints j cpDeactivate) i cpActivate).getD i default =
          cpActivate ((modifyAt w.checkpoints j cpDeactivate).getD i default) :=
        getD_modifyAt_eq _ _ _ _ (by rw [hlen1]; exact hi)
      have hgd2 : (modifyAt w.checkpoints j cpDeactivate).getD i default =
          w.checkpoints.getD i default :=
        getD_modifyAt_ne _ _ _ _ _ (fun he => hji he.symm)
      rw [hgd, hgd2]
      simp [cpRespawnPosition, cpActivate]

/-- Witness for `C7_checkpoint_exclusive`: a two-checkpoint world with the
first active; activating the second preserves exclusivity. -/
theorem C7_checkpoint_exclusive_witness :
    CPInv ⟨[⟨1, ⟨0, 0, 5⟩, 12, 15, 3/5, true⟩, ⟨2, ⟨0, 0, 60⟩, 20, 14, 3/5, false⟩],
      some 0, some ⟨0, 4/5, 5⟩⟩ ∧
    (1:ℕ) < 2 ∧
    atMostOneActive (activateCheckpoint
      ⟨[⟨1, ⟨0, 0, 5⟩, 12, 15, 3/5, true⟩, ⟨2, ⟨0, 0, 60⟩, 20, 14, 3/5, false⟩],
        some 0, some ⟨0, 4/5, 5⟩⟩ 1) := by
  have hInv : CPInv ⟨[⟨1, ⟨0, 0, 5⟩, 12, 15, 3/5, true⟩, ⟨2, ⟨0, 0, 60⟩, 20, 14, 3/5, false⟩],
      some 0, some ⟨0, 4/5, 5⟩⟩ := by
    constructor
    · intro j hj
      match j with
      | 0 => simp
      | 1 => simp
      | (k + 2) => simp at hj
    · intro j hj
      simp only [Option.some_inj] at hj
      subst hj
      simp
  exact ⟨hInv, by norm_num,
    (C7_checkpoint_exclusive _ 1 hInv (by simp)).2.1⟩

/-! ### Death and respawn (C9) -/

/-- Claim C9: whenever the player's Y position is below the death threshold
and the death cooldown has elapsed, the player is teleported to the recorded
respawn coordinate (the default spawn `(0, 0.5, 5)` when no checkpoint is
active yet), the velocity is zeroed, the grounded state is forced, and a
fresh one-second cooldown is armed; while the cooldown is still running, a
threshold crossing does not retrigger a respawn (the step leaves the player
untouched). -/
theorem C9_death_respawn (threshold dt cd : ℚ) (w : WorldCP) (p : PState) :
    (cooldownAfter dt cd ≤ 0 → p.position.y < threshold →
      (deathStep threshold dt cd w p).2.position = getRespawnPosition w ∧
      (deathStep threshold dt cd w p).2.velocity = ⟨0, 0, 0⟩ ∧
      (deathStep threshold dt cd w p).2.isGrounded = true ∧
      (deathStep threshold dt cd w p).1 = 1) ∧
    (0 < cooldownAfter dt cd →
      deathStep threshold dt cd w p = (cooldownAfter dt cd, p)) ∧
    (w.lastCheckpointPosition = none → getRespawnPosition w = ⟨0, 1/2, 5⟩) ∧
    (∀ v, w.lastCheckpointPosition = some v → getRespawnPosition w = v) := by
  refine ⟨?_, ?_, ?_, ?_⟩
  · intro hcd hdead
    simp only [deathStep, if_pos (And.intro hcd hdead)]
    simp [handleParkourDeath, setPosition, emit]
  · intro hcd
    have hne : ¬ (cooldownAfter dt cd ≤ 0 ∧ p.position.y < threshold) :=
      fun h => absurd hcd (not_lt.mpr h.1)
    simp only [deathStep, if_neg hne]
  · intro hnone
    simp [getRespawnPosition, hnone]
  · intro v hv
    simp [getRespawnPosition, hv]

/-- Witness for `C9_death_respawn`: an expired cooldown and a player at
`y = -40` with an active checkpoint respawn at `(0, 0.8, 60)`. -/
theorem C9_death_respawn_witness :
    cooldownAfter (1/10) 0 ≤ 0 ∧ (-40 : ℚ) < -30 ∧
    (deathStep (-30) (1/10) 0 ⟨[], none, some ⟨0, 4/5, 60⟩⟩
      { groundedRestState with position := ⟨0, -40, 0⟩ }).2.position = ⟨0, 4/5, 60⟩ ∧
    (deathStep (-30) (1/10) 0 ⟨[], none, some ⟨0, 4/5, 60⟩⟩
      { groundedRestState with position := ⟨0, -40, 0⟩ }).2.isGrounded = true := by
  have h1 : cooldownAfter (1/10) 0 ≤ (0:ℚ) := by norm_num [cooldownAfter]
  have h2 : ({ groundedRestState with position := ⟨0, -40, 0⟩ } :
      PState).position.y < (-30 : ℚ) := by norm_num [groundedRestState]
  have h := (C9_death_respawn (-30) (1/10) 0 ⟨[], none, some ⟨0, 4/5, 60⟩⟩
    { groundedRestState with position := ⟨0, -40, 0⟩ }).1 h1 h2
  refine ⟨h1, by norm_num, ?_, h.2.2.1⟩
  rw [h.1]
  simp [getRespawnPosition]

/-! ### The obstacle aggregate of the chunk manager (C10) -/

lemma foldl_erase_append {cs X : List ℕ} (O : List ℕ)
    (hO : ∀ o ∈ O, o ∉ cs) :
    O.foldl (fun acc o => acc.erase o) (cs ++ X) =
      cs ++ O.foldl (fun acc o => acc.erase o) X := by
  induction O generalizing X with
  | nil => rfl
  | cons o O' ih =>
    simp only [List.foldl_cons]
    rw [List.erase_append_right _ (hO o (by simp))]
    exact ih (fun x hx => hO x (by simp [hx]))

lemma foldl_erase_sublist (O L : List ℕ) :
    (O.foldl (fun acc o => acc.erase o) L).Sublist L := by
  induction O generalizing L with
  | nil => exact List.Sublist.refl L
  | cons o O' ih =>
    simp only [List.foldl_cons]
    exact (ih (L.erase o)).trans (List.erase_sublist o L)

lemma foldl_erase_middle (L0 O L1 : List ℕ) (h : (L0 ++ O ++ L1).Nodup) :
    O.foldl (fun acc o => acc.erase o) (L0 ++ O ++ L1) = L0 ++ L1 := by
  induction O generalizing L0 with
  | nil => simp
  | cons o O' ih =>
    simp only [List.foldl_cons]
    have hoL0 : o ∉ L0 := by
      intro hmem
      rw [List.append_assoc] at h
      have := (List.nodup_append.mp h).2.2
      exact this hmem (by simp)
    have he : (L0 ++ (o :: O') ++ L1).erase o = L0 ++ O' ++ L1 := by
      rw [List.append_assoc, List.erase_append_right _ hoL0,
        List.erase_append_left _ (by simp : o ∈ o :: O')]
      simp [List.append_assoc]
    rw [he]
    refine ih L0 ?_
    have hsub : (L0 ++ O' ++ L1).Sublist (L0 ++ (o :: O') ++ L1) := by
      refine List.Sublist.append ?_ (List.Sublist.refl L1)
      exact List.Sublist.append (List.Sublist.refl L0) (List.sublist_cons_self o O')
    exact h.sublist hsub

lemma flatten_erase (css : List (List ℕ)) (i : ℕ) (c : List ℕ)
    (hget : css.get? i = some c) (hn : css.flatten.Nodup) :
    c.foldl (fun acc o => acc.erase o) css.flatten = (css.eraseIdx i).flatten := by
  induction css generalizing i with
  | nil => simp at hget
  | cons cs rest ih =>
    cases i with
    | zero =>
      simp only [List.get?_cons_zero, Option.some_inj] at hget
      subst hget
      have := foldl_erase_middle [] cs rest.flatten (by simpa using hn)
      simpa using this
    | succ j =>
      simp only [List.get?_cons_succ] at hget
      have hcs : ∀ o ∈ c, o ∉ cs := by
        intro o ho hmem
        have hoflat : o ∈ rest.flatten := by
          rw [List.mem_flatten]
          exact ⟨c, List.get?_mem hget, ho⟩
        have := (List.nodup_append.mp (by simpa using hn)).2.2
        exact this hmem hoflat
      simp only [List.flatten_cons, List.eraseIdx_cons_succ]
      rw [foldl_erase_append c hcs, ih j hget (List.Nodup.of_append_right (by simpa using hn))]

lemma map_eraseIdx' {α β : Type} (f : α → β) :
    ∀ (l : List α) (i : ℕ), (l.eraseIdx i).map f = (l.map f).eraseIdx i := by
  intro l
  induction l with
  | nil => intro i; rfl
  | cons a t ih =>
    intro i
    cases i with
    | zero => rfl
    | succ j => simp [List.eraseIdx_cons_succ, ih j]

lemma disposeChunkCM_pres {s : CMState} (h : CMInvN s) (i : ℕ) :
    CMInvN (disposeChunkCM s i) := by
  unfold disposeChunkCM
  cases hget : s.chunks.get? i with
  | none => exact h
  | some chunk =>
    simp only
    have hmap : (s.chunks.map Chunk.obstacles).get? i = some chunk.obstacles := by
      simp only [List.get?_eq_getElem?, List.getElem?_map]
      rw [← List.get?_eq_getElem?, hget]
      rfl
    have hflat : chunk.obstacles.foldl (fun acc o => acc.erase o) s.allObstacles =
        ((s.chunks.map Chunk.obstacles).eraseIdx i).flatten := by
      rw [h.1]
      exact flatten_erase _ i _ hmap (h.1 ▸ h.2)
    constructor
    · show _ = _
      rw [hflat, map_eraseIdx']
    · have hsub := foldl_erase_sublist chunk.obstacles s.allObstacles
      exact h.2.sublist hsub

lemma addChunkCM_pres {s : CMState} (h : CMInv s) (cd : ChunkOut) (startZ : ℚ) :
    CMInv (addChunkCM cd startZ s) := by
  unfold addChunkCM CMInv at *
  simp [h]

lemma foldl_dispose_pres {s : CMState} (h : CMInvN s) (l : List ℕ) :
    CMInvN (l.foldl disposeChunkCM s) := by
  induction l generalizing s with
  | nil => exact h
  | cons i t ih => exact ih (disposeChunkCM_pres h i)

lemma foldl_gen_pres (cds : List ChunkOut) :
    ∀ (s : CMState), CMInv s →
      (s.allObstacles ++ (cds.map ChunkOut.obstacles).flatten).Nodup →
      CMInvN (cds.foldl (fun t cd => generateNextChunkCM cd t) s) := by
  induction cds with
  | nil =>
    intro s h hn
    exact ⟨h, by simpa using hn⟩
  | cons cd rest ih =>
    intro s h hn
    simp only [List.foldl_cons]
    refine ih _ (addChunkCM_pres h cd s.currentZ) ?_
    simp only [generateNextChunkCM, addChunkCM]
    simpa [List.append_assoc] using hn

/-- Claim C10: `allObstacles` is exactly the concatenation of the live
chunks' obstacle lists, and (given the source's freshness guarantee that
obstacle meshes are distinct objects) `addChunk`, `disposeChunk`, `update`
and `reset` each preserve this aggregate invariant. -/
theorem C10_obstacle_aggregate (s : CMState) (h : CMInvN s) :
    (∀ cd startZ, (s.allObstacles ++ cd.obstacles).Nodup →
      CMInvN (addChunkCM cd startZ s)) ∧
    (∀ i, CMInvN (disposeChunkCM s i)) ∧
    (∀ chunkLength chunksAhead chunksBehind playerZ cd,
      (s.allObstacles ++ cd.obstacles).Nodup →
      CMInvN (updateCM chunkLength chunksAhead chunksBehind playerZ cd s)) ∧
    (∀ newChunks, ((newChunks.map ChunkOut.obstacles).flatten).Nodup →
      CMInvN (resetCM newChunks s)) := by
  refine ⟨?_, ?_, ?_, ?_⟩
  · intro cd startZ hfresh
    exact ⟨addChunkCM_pres h.1 cd startZ, by simpa [addChunkCM] using hfresh⟩
  · intro i
    exact disposeChunkCM_pres h i
  · intro cl ca cb pz cd hfresh
    unfold updateCM
    apply foldl_dispose_pres
    by_cases hgen : s.currentZ - pz < ca * cl
    · simp only [if_pos hgen]
      exact ⟨addChunkCM_pres h.1 cd s.currentZ, by simpa [generateNextChunkCM, addChunkCM]
        using hfresh⟩
    · simp only [if_neg hgen]
      exact h
  · intro newChunks hfresh
    unfold resetCM
    exact foldl_gen_pres newChunks _ (by simp [CMInv]) (by simpa using hfresh)

/-- Witness for `C10_obstacle_aggregate`: a two-chunk manager state with
distinct obstacles; an update that generates a fresh chunk and disposes the
trailing one preserves the aggregate invariant. -/
theorem C10_obstacle_aggregate_witness :
    CMInvN ⟨[⟨0, 40, [1, 2]⟩, ⟨40, 80, [3]⟩], 80, 0, [1, 2, 3]⟩ ∧
    ((([1, 2, 3] : List ℕ) ++ [4, 5]).Nodup) ∧
    CMInvN (updateCM 40 2 1 90 ⟨120, 0, [4, 5]⟩
      ⟨[⟨0, 40, [1, 2]⟩, ⟨40, 80, [3]⟩], 80, 0, [1, 2, 3]⟩) := by
  have hInv : CMInvN ⟨[⟨0, 40, [1, 2]⟩, ⟨40, 80, [3]⟩], 80, 0, [1, 2, 3]⟩ := by
    constructor
    · simp [CMInv]
    · simp
  have hfresh : ((([1, 2, 3] : List ℕ) ++ [4, 5]).Nodup) := by simp
  exact ⟨hInv, hfresh,
    (C10_obstacle_aggregate _ hInv).2.2.1 40 2 1 90 ⟨120, 0, [4, 5]⟩ hfresh⟩

/-! ### Bounce pad override of the ground stop (C8) -/

/-- Claim C8: when the raycast ground check finds the player landing on a
ground surface tagged bouncy while descending (`velocity.y ≤ 0`), the normal
ground stop is overridden — the vertical velocity is set to the surface's
`bounceForce` tag, the body re-enters the airborne state instead of
grounding, and the contact emits the (reused) jump event rather than a land
event. -/
theorem C8_bounce_override (s : PState) (info : GroundInfo) (h : ℚ)
    (hB : info.isBouncy = true) (hv : s.velocity.y ≤ 0)
    (hyPos : ¬ s.position.y ≤ (0:ℚ)) (hSome : info.height = some h)
    (hSnap : s.position.y ≤ h + 1/10) :
    (fpcCheckGroundWith s info).velocity.y = info.bounceForce ∧
    (fpcCheckGroundWith s info).isGrounded = false ∧
    (fpcCheckGroundWith s info).events = Ev.jump :: s.events ∧
    Ev.land ∉ (fpcCheckGroundWith s info).events.take 1 ∧
    (fpcCheckGroundWith s info).position.y = h := by
  unfold fpcCheckGroundWith
  rw [if_neg hyPos, hSome]
  simp only
  rw [if_pos hSnap, if_pos (And.intro hB (by simpa using hv))]
  simp [emit]

/-- Witness for `C8_bounce_override`: a falling player snapping onto a
bounce pad's collision mesh (tagged by `BouncePad.build`). -/
theorem C8_bounce_override_witness :
    (bouncePadGroundInfo ⟨PKind.bouncePad, 0, 3/10, 19, 4, 4, 0, 18, 0, 0, 0⟩
        (1/2)).isBouncy = true ∧
    (fpcCheckGroundWith
      { groundedRestState with
        isGrounded := false, position := ⟨0, 11/20, 19⟩, velocity := ⟨0, -5, 0⟩ }
      (bouncePadGroundInfo ⟨PKind.bouncePad, 0, 3/10, 19, 4, 4, 0, 18, 0, 0, 0⟩
        (1/2))).velocity.y = 18 ∧
    (fpcCheckGroundWith
      { groundedRestState with
        isGrounded := false, position := ⟨0, 11/20, 19⟩, velocity := ⟨0, -5, 0⟩ }
      (bouncePadGroundInfo ⟨PKind.bouncePad, 0, 3/10, 19, 4, 4, 0, 18, 0, 0, 0⟩
        (1/2))).isGrounded = false := by
  have h := C8_bounce_override
    { groundedRestState with
      isGrounded := false, position := ⟨0, 11/20, 19⟩, velocity := ⟨0, -5, 0⟩ }
    (bouncePadGroundInfo ⟨PKind.bouncePad, 0, 3/10, 19, 4, 4, 0, 18, 0, 0, 0⟩ (1/2))
    (1/2)
    (by simp [bouncePadGroundInfo])
    (by norm_num [groundedRestState])
    (by norm_num [groundedRestState])
    (by simp [bouncePadGroundInfo])
    (by norm_num [groundedRestState])
  exact ⟨by simp [bouncePadGroundInfo], by simpa [bouncePadGroundInfo] using h.1, h.2.1⟩

/-! ### Slide termination (C3) -/

lemma canStandUp_congr {s t : PState} (hp : t.position = s.position)
    (ho : t.obstacles = s.obstacles) : canStandUp t = canStandUp s := by
  unfold canStandUp
  rw [hp, ho]

/-- Claim C3 (amended; see `C3_counterexample` for the failure of the
crouch-press case as originally stated). When a slide ends because the
decayed speed drops below `SLIDE_MIN_SPEED`, the player always transitions
to crouching and the slide cooldown starts. When crouch is pressed again
while sliding (without the speed having decayed), the slide also ends with
the cooldown started, but the player transitions to crouching only when the
stand-up probe is blocked — with headroom the player stands up directly. -/
theorem C3_slide_end (env : JsMath) (inp : Input) (dt : ℚ) (s : PState) (spd : ℚ)
    (hSlide : s.isSliding = true) (hWR : s.isWallRunning = false)
    (hNC : s.isCrouching = false)
    (hSqrt : env.sqrt (s.velocity.x ^ 2 + s.velocity.z ^ 2) = spd) :
    (max 0 (spd - SLIDE_FRICTION / max (3/10) (spd / SLIDE_SPEED) * dt) < SLIDE_MIN_SPEED →
      (handleCrouchSlide env inp dt s).isSliding = false ∧
      (handleCrouchSlide env inp dt s).isCrouching = true ∧
      (handleCrouchSlide env inp dt s).slideCooldown = SLIDE_COOLDOWN) ∧
    (¬ max 0 (spd - SLIDE_FRICTION / max (3/10) (spd / SLIDE_SPEED) * dt) < SLIDE_MIN_SPEED →
      inp.crouchPressed = true →
      (handleCrouchSlide env inp dt s).isSliding = false ∧
      (handleCrouchSlide env inp dt s).slideCooldown = SLIDE_COOLDOWN ∧
      (handleCrouchSlide env inp dt s).isCrouching = !(canStandUpAt s.position s.obstacles)) := by
  constructor
  · intro hdec
    by_cases hcp : inp.crouchPressed
    all_goals
      simp only [handleCrouchSlide, slidingUpdate, slideFriction, hWR, hSlide, Bool.false_eq_true,
        if_false, Bool.true_eq_false, not_true, false_and, and_false, if_true,
        canStandUp, hcp]
      simp only [hSqrt]
      repeat' split
      all_goals simp_all [endSlide, startCrouch, emit, canStandUp]
  · intro hdec hcp
    simp only [handleCrouchSlide, slidingUpdate, slideFriction, hWR, hSlide, Bool.false_eq_true,
      if_false, Bool.true_eq_false, not_true, false_and, and_false, if_true,
      canStandUp, hcp]
    simp only [hSqrt]
    repeat' split
    all_goals simp_all [endSlide, startCrouch, emit, canStandUp]

/-- Witness for `C3_slide_end`: a slide at speed `10` with no obstacles. -/
theorem C3_slide_end_witness :
    slidingState.isSliding = true ∧
    ¬ max 0 (10 - SLIDE_FRICTION / max (3/10) (10 / SLIDE_SPEED) * (2/125))
        < SLIDE_MIN_SPEED ∧
    (handleCrouchSlide envSqrt100 crouchInput (2/125) slidingState).isSliding = false ∧
    (handleCrouchSlide envSqrt100 crouchInput (2/125) slidingState).isCrouching =
      !(canStandUpAt slidingState.position slidingState.obstacles) := by
  have hSlide : slidingState.isSliding = true := rfl
  have hWR : slidingState.isWallRunning = false := rfl
  have hSqrt : envSqrt100.sqrt (slidingState.velocity.x ^ 2 +
      slidingState.velocity.z ^ 2) = 10 := by
    norm_num [envSqrt100, slidingState, groundedRestState]
  have hdec : ¬ max 0 ((10:ℚ) - SLIDE_FRICTION / max (3/10) (10 / SLIDE_SPEED) * (2/125))
      < SLIDE_MIN_SPEED := by
    norm_num [SLIDE_FRICTION, SLIDE_SPEED, SLIDE_MIN_SPEED]
  have h := (C3_slide_end envSqrt100 crouchInput (2/125) slidingState 10
    hSlide hWR rfl hSqrt).2 hdec rfl
  exact ⟨hSlide, hdec, h.1, h.2.2⟩

/-- Claim C3 as stated fails on the code: pressing crouch during a fast
slide (speed `10`, stand-up clear) ends the slide and starts the cooldown,
but leaves the player standing (`isCrouching = false`) rather than
transitioning to the crouching state. -/
theorem C3_counterexample :
    slidingState.isSliding = true ∧ crouchInput.crouchPressed = true ∧
    (handleCrouchSlide envSqrt100 crouchInput (2/125) slidingState).isSliding = false ∧
    (handleCrouchSlide envSqrt100 crouchInput (2/125) slidingState).slideCooldown =
      SLIDE_COOLDOWN ∧
    (handleCrouchSlide envSqrt100 crouchInput (2/125) slidingState).isCrouching = false := by
  refine ⟨rfl, rfl, ?_⟩
  have hcs : canStandUpAt (⟨0, 9/5, 0⟩ : Vec3) ([] : List Box3) = true := by
    simp [canStandUpAt]
  simp only [handleCrouchSlide, slidingUpdate, slideFriction, slidingState,
    groundedRestState, crouchInput, envSqrt100]
  norm_num [endSlide, startCrouch, emit, canStandUp, hcs, SLIDE_MIN_SPEED, SLIDE_FRICTION,
    SLIDE_SPEED, SLIDE_COOLDOWN]

/-! ### Timer lower bound (C4) -/

@[simp] lemma emit_timers (e : Ev) (s : PState) :
    (emit e s).jumpCooldown = s.jumpCooldown ∧
    (emit e s).coyoteTime = s.coyoteTime ∧
    (emit e s).jumpBufferTime = s.jumpBufferTime ∧
    (emit e s).wallRunCooldown = s.wallRunCooldown ∧
    (emit e s).slideCooldown = s.slideCooldown := ⟨rfl, rfl, rfl, rfl, rfl⟩

lemma timersBdd_emit {b : ℚ} {s : PState} (e : Ev) (h : timersBdd b s) :
    timersBdd b (emit e s) := h

lemma timersBdd_endSlide {b : ℚ} {s : PState} (hb : 0 < b) (h : timersBdd b s) :
    timersBdd b (endSlide s) := by
  unfold timersBdd endSlide emit SLIDE_COOLDOWN at *
  refine ⟨h.1, h.2.1, h.2.2.1, h.2.2.2.1, by linarith⟩

lemma timersBdd_startCrouch {b : ℚ} {s : PState} (h : timersBdd b s) :
    timersBdd b (startCrouch s) := h

lemma timersBdd_endCrouch {b : ℚ} {s : PState} (h : timersBdd b s) :
    timersBdd b (endCrouch s) := h

lemma timersBdd_endCrouchSlide {b : ℚ} {s : PState} (hb : 0 < b) (h : timersBdd b s) :
    timersBdd b (endCrouchSlide s) := by
  unfold endCrouchSlide
  dsimp only
  split
  · split
    · exact timersBdd_endCrouch (timersBdd_endSlide hb h)
    · exact timersBdd_endSlide hb h
  · split
    · exact timersBdd_endCrouch h
    · exact h

lemma timersBdd_startSlide {b : ℚ} {s : PState} (env : JsMath) (h : timersBdd b s) :
    timersBdd b (startSlide env s) := by
  unfold timersBdd startSlide emit at *
  dsimp only
  split <;> exact h

lemma timersBdd_updateCrouchHeight {b : ℚ} {s : PState} (h : timersBdd b s) :
    timersBdd b (updateCrouchHeight s) := by
  unfold timersBdd updateCrouchHeight at *
  split <;> exact h

lemma timersBdd_endWallRun {b : ℚ} {s : PState} (hb : 0 < b) (h : timersBdd b s) :
    timersBdd b (endWallRun s) := by
  unfold timersBdd endWallRun at *
  refine ⟨h.1, h.2.1, h.2.2.1, by linarith, h.2.2.2.2⟩

lemma timersBdd_startWallRun {b : ℚ} {s : PState} (v : Vec3) (h : timersBdd b s) :
    timersBdd b (startWallRun v s) := by
  unfold timersBdd startWallRun emit at *
  dsimp only
  split <;> exact h

lemma timersBdd_wallJump {b : ℚ} {s : PState} (hb : 0 < b) (h : timersBdd b s) :
    timersBdd b (wallJump s) := by
  unfold timersBdd wallJump endWallRun emit JUMP_COOLDOWN at *
  refine ⟨by linarith, h.2.1, by linarith, by linarith, h.2.2.2.2⟩

lemma timersBdd_jump {b : ℚ} {s : PState} (hb : 0 < b) (h : timersBdd b s) :
    timersBdd b (jump s) := by
  have h1 : timersBdd b { s with
      velocity := { s.velocity with y := JUMP_FORCE },
      isGrounded := false, canJump := false,
      jumpCooldown := JUMP_COOLDOWN, coyoteTime := 0, jumpBufferTime := 0 } := by
    unfold timersBdd JUMP_COOLDOWN at *
    refine ⟨by linarith, by linarith, by linarith, h.2.2.2.1, h.2.2.2.2⟩
  unfold jump
  dsimp only
  apply timersBdd_emit
  split
  · exact timersBdd_endCrouchSlide hb h1
  · exact h1

lemma timersBdd_updateTimers {b dt : ℚ} {s : PState} (hb : dt ≤ b)
    (h : timersBdd b s) : timersBdd b (updateTimers dt s) := by
  unfold timersBdd updateTimers at *
  obtain ⟨h1, h2, h3, h4, h5⟩ := h
  refine ⟨?_, ?_, ?_, ?_, ?_⟩ <;> simp only <;> split <;> linarith

lemma timersBdd_slideFriction {b : ℚ} {s : PState} (env : JsMath) (dt : ℚ)
    (h : timersBdd b s) : timersBdd b (slideFriction env dt s).1 := by
  unfold slideFriction
  dsimp only
  split <;> exact h

lemma timersBdd_slidingUpdate {b : ℚ} {s : PState} (env : JsMath) (inp : Input)
    (dt : ℚ) (hb : 0 < b) (h : timersBdd b s) :
    timersBdd b (slidingUpdate env inp dt s) := by
  have hfr : timersBdd b (slideFriction env dt s).1 := timersBdd_slideFriction env dt h
  have hs3 : timersBdd b (if (slideFriction env dt s).2 < SLIDE_MIN_SPEED then
      startCrouch (endSlide (slideFriction env dt s).1) else (slideFriction env dt s).1) := by
    split
    · exact timersBdd_startCrouch (timersBdd_endSlide hb hfr)
    · exact hfr
  unfold slidingUpdate
  dsimp only
  split
  · split
    · split
      · exact timersBdd_startCrouch (timersBdd_endSlide hb
          (timersBdd_startCrouch (timersBdd_endSlide hb hfr)))
      · exact timersBdd_endSlide hb (timersBdd_startCrouch (timersBdd_endSlide hb hfr))
    · split
      · exact timersBdd_startCrouch (timersBdd_endSlide hb hfr)
      · exact timersBdd_endSlide hb hfr
  · exact hs3

lemma timersBdd_crouchToggleUpdate {b : ℚ} {s : PState} (inp : Input)
    (h : timersBdd b s) : timersBdd b (crouchToggleUpdate inp s) := by
  unfold crouchToggleUpdate
  dsimp only
  apply timersBdd_updateCrouchHeight
  split
  · split
    · split
      · exact timersBdd_endCrouch h
      · exact h
    · exact timersBdd_startCrouch h
  · exact h

lemma timersBdd_handleCrouchSlide {b : ℚ} {s : PState} (env : JsMath) (inp : Input)
    (dt : ℚ) (hb : 0 < b) (h : timersBdd b s) :
    timersBdd b (handleCrouchSlide env inp dt s) := by
  unfold handleCrouchSlide
  split
  · split
    · exact timersBdd_endSlide hb h
    · exact h
  · split
    · exact h
    · split
      · exact timersBdd_slidingUpdate env inp dt hb h
      · split
        · exact timersBdd_startSlide env h
        · exact timersBdd_crouchToggleUpdate inp h

lemma timersBdd_handleMovement {b : ℚ} {s : PState} (env : JsMath) (inp : Input)
    (dt : ℚ) (h : timersBdd b s) : timersBdd b (handleMovement env inp dt s) := by
  unfold handleMovement
  dsimp only
  repeat' split
  all_goals exact h

lemma timersBdd_handleJump {b : ℚ} {s : PState} (inp : Input) (hb : 0 < b)
    (h : timersBdd b s) : timersBdd b (handleJump inp s) := by
  have h1 : timersBdd b { s with jumpBufferTime := JUMP_BUFFER } := by
    unfold timersBdd JUMP_BUFFER at *
    exact ⟨h.1, h.2.1, by linarith, h.2.2.2.1, h.2.2.2.2⟩
  unfold handleJump
  dsimp only
  split
  · split
    · exact timersBdd_wallJump hb h1
    · split
      · exact timersBdd_jump hb h1
      · exact h1
  · split
    · exact timersBdd_wallJump hb h
    · split
      · exact timersBdd_jump hb h
      · exact h

lemma timersBdd_setWallRunTime {b t : ℚ} {s : PState} (h : timersBdd b s) :
    timersBdd b { s with wallRunTime := t } := h

lemma timersBdd_handleWallRun {b : ℚ} {s : PState} (env : JsMath) (dt : ℚ) (hb : 0 < b)
    (h : timersBdd b s) : timersBdd b (handleWallRun env dt s) := by
  unfold handleWallRun
  dsimp only
  split
  · split
    · exact timersBdd_setWallRunTime (timersBdd_endWallRun hb h)
    · exact timersBdd_setWallRunTime h
  · split
    · split
      · exact timersBdd_endWallRun hb (timersBdd_setWallRunTime h)
      · split
        · exact timersBdd_endWallRun hb (timersBdd_setWallRunTime h)
        · exact h
    · split
      · exact h
      · split
        · exact h
        · split
          · exact timersBdd_startWallRun _ h
          · exact h

lemma timersBdd_applyGravity {b dt : ℚ} {s : PState} (h : timersBdd b s) :
    timersBdd b (applyGravity dt s) := by
  unfold applyGravity
  dsimp only
  repeat' split
  all_goals exact h

lemma timersBdd_applyVelocity {b dt : ℚ} {s : PState} (h : timersBdd b s) :
    timersBdd b (applyVelocity dt s) := by
  unfold applyVelocity
  dsimp only
  repeat' split
  all_goals exact h

lemma timersBdd_checkGround {b : ℚ} {s : PState} (hb : 0 < b) (h : timersBdd b s) :
    timersBdd b (checkGround s) := by
  have hcoyote : -b < COYOTE_TIME := by unfold COYOTE_TIME; linarith
  have hzero : -b < (0:ℚ) := by linarith
  unfold timersBdd at h ⊢
  unfold checkGround
  dsimp only
  repeat' split
  all_goals
    first
      | exact h
      | exact ⟨h.1, hcoyote, h.2.2.1, h.2.2.2.1, h.2.2.2.2⟩
      | exact ⟨h.1, h.2.1, hzero, h.2.2.2.1, h.2.2.2.2⟩

lemma timersBdd_events {b : ℚ} {s : PState} (h : timersBdd b s) :
    timersBdd b (checkCrouchSlideEvents (checkSprintEvents s)) := by
  unfold checkCrouchSlideEvents checkSprintEvents emit
  dsimp only
  repeat' split
  all_goals exact h

/-- Claim C4 (amended; see `C4_counterexample` for the failure of
non-negativity as stated). The timers are decremented only while positive,
so with every tick length in `(0, b]`, a state whose five movement timers
all exceed `-b` steps to a state whose timers still all exceed `-b`: a timer
can undershoot zero by at most the tick's `deltaTime`, and is never
decremented further once non-positive. -/
theorem C4_timer_lower_bound (env : JsMath) (inp : Input) (dt b : ℚ) (s : PState)
    (hdt : 0 < dt) (hb : dt ≤ b) (h : timersBdd b s) :
    timersBdd b (update env inp dt s) := by
  have hb0 : 0 < b := lt_of_lt_of_le hdt hb
  unfold update
  exact timersBdd_events (timersBdd_checkGround hb0 (timersBdd_applyVelocity
    (timersBdd_applyGravity (timersBdd_handleWallRun env dt hb0
      (timersBdd_handleJump inp hb0 (timersBdd_handleMovement env inp dt
        (timersBdd_handleCrouchSlide env inp dt hb0
          (timersBdd_updateTimers hb h))))))))

/-- Witness for `C4_timer_lower_bound` at the buffered rest state with
`dt = b = 0.1`. -/
theorem C4_timer_lower_bound_witness :
    (0:ℚ) < 1/10 ∧ timersBdd (1/10) bufferedTimerState ∧
    timersBdd (1/10) (update env0 noInput (1/10) bufferedTimerState) := by
  have h1 : (0:ℚ) < 1/10 := by norm_num
  have h : timersBdd (1/10) bufferedTimerState := by
    norm_num [timersBdd, bufferedTimerState, groundedRestState]
  exact ⟨h1, h, C4_timer_lower_bound env0 noInput (1/10) (1/10) _ h1 le_rfl h⟩

/-- Claim C4 as stated fails on the code: one tick of `dt = 0.1` from a
rest state whose jump buffer holds `0.05` leaves the jump buffer at
`-0.05 < 0` (the timers are decremented without clamping at zero). -/
theorem C4_counterexample :
    (0:ℚ) < 1/10 ∧ bufferedTimerState.jumpBufferTime = 1/20 ∧
    (update env0 noInput (1/10) bufferedTimerState).jumpBufferTime < 0 := by
  refine ⟨by norm_num, rfl, ?_⟩
  norm_num [update, updateTimers, handleCrouchSlide, slidingUpdate, slideFriction,
    crouchToggleUpdate,
    handleMovement, handleJump, handleWallRun, applyGravity, applyVelocity, checkGround,
    getGroundHeight, checkSprintEvents, checkCrouchSlideEvents, updateCrouchHeight,
    canStandUp, canStandUpAt, startCrouch, endCrouch, endSlide, startSlide, emit, qlerp,
    bufferedTimerState, groundedRestState, noInput, env0, detectWall, jump, wallJump,
    startWallRun, endWallRun, endCrouchSlide, COYOTE_TIME, PLAYER_HEIGHT, GRAVITY,
    TERMINAL_VELOCITY]

/-! ### Wall-run time bound (C6) -/

lemma sameWall_wallMono {s t : PState} (h : sameWall s t) : wallMono s t :=
  ⟨h.1, h.2.1, fun hh => h.2.2 ▸ hh⟩

lemma sameWall_updateTimers (dt : ℚ) (s : PState) : sameWall s (updateTimers dt s) :=
  ⟨rfl, rfl, rfl⟩

lemma sameWall_endSlide (s : PState) : sameWall s (endSlide s) := ⟨rfl, rfl, rfl⟩

lemma sameWall_startCrouch (s : PState) : sameWall s (startCrouch s) := ⟨rfl, rfl, rfl⟩

lemma sameWall_trans {s t u : PState} (h1 : sameWall s t) (h2 : sameWall t u) :
    sameWall s u :=
  ⟨h2.1.trans h1.1, h2.2.1.trans h1.2.1, h2.2.2.trans h1.2.2⟩

lemma sameWall_slideFriction (env : JsMath) (dt : ℚ) (s : PState) :
    sameWall s (slideFriction env dt s).1 := by
  unfold slideFriction
  dsimp only
  split <;> exact ⟨rfl, rfl, rfl⟩

set_option maxHeartbeats 1000000 in
lemma sameWall_slidingUpdate (env : JsMath) (inp : Input) (dt : ℚ) (s : PState) :
    sameWall s (slidingUpdate env inp dt s) := by
  have hfr := sameWall_slideFriction env dt s
  have hs3 : sameWall s (if (slideFriction env dt s).2 < SLIDE_MIN_SPEED then
      startCrouch (endSlide (slideFriction env dt s).1) else (slideFriction env dt s).1) := by
    split
    · exact sameWall_trans hfr ⟨rfl, rfl, rfl⟩
    · exact hfr
  unfold slidingUpdate
  dsimp only
  split
  · split
    · split
      · exact sameWall_trans hfr ⟨rfl, rfl, rfl⟩
      · exact sameWall_trans hfr ⟨rfl, rfl, rfl⟩
    · split
      · exact sameWall_trans hfr ⟨rfl, rfl, rfl⟩
      · exact sameWall_trans hfr ⟨rfl, rfl, rfl⟩
  · exact hs3

lemma sameWall_crouchToggleUpdate (inp : Input) (s : PState) :
    sameWall s (crouchToggleUpdate inp s) := by
  unfold crouchToggleUpdate updateCrouchHeight
  dsimp only
  repeat' split
  all_goals exact ⟨rfl, rfl, rfl⟩

lemma sameWall_startSlide (env : JsMath) (s : PState) :
    sameWall s (startSlide env s) := by
  unfold startSlide emit
  dsimp only
  split <;> exact ⟨rfl, rfl, rfl⟩

lemma sameWall_handleCrouchSlide (env : JsMath) (inp : Input) (dt : ℚ) (s : PState) :
    sameWall s (handleCrouchSlide env inp dt s) := by
  unfold handleCrouchSlide
  split
  · split
    · exact sameWall_endSlide s
    · exact ⟨rfl, rfl, rfl⟩
  · split
    · exact ⟨rfl, rfl, rfl⟩
    · split
      · exact sameWall_slidingUpdate env inp dt s
      · split
        · exact sameWall_startSlide env s
        · exact sameWall_crouchToggleUpdate inp s

lemma sameWall_handleMovement (env : JsMath) (inp : Input) (dt : ℚ) (s : PState) :
    sameWall s (handleMovement env inp dt s) := by
  unfold handleMovement
  dsimp only
  repeat' split
  all_goals exact ⟨rfl, rfl, rfl⟩

lemma wallMono_handleJump (inp : Input) (s : PState) : wallMono s (handleJump inp s) := by
  have hjump : ∀ t : PState, t.wallRunTime = s.wallRunTime →
      t.wallRunMaxTime = s.wallRunMaxTime → t.isWallRunning = s.isWallRunning →
      wallMono s (jump t) := by
    intro t h1 h2 h3
    unfold jump endCrouchSlide endSlide endCrouch emit
    dsimp only
    repeat' split
    all_goals exact ⟨h1, h2, fun hh => h3 ▸ hh⟩
  unfold handleJump
  dsimp only
  split
  · split
    · exact ⟨rfl, rfl, by intro hh; exact absurd hh (by simp [wallJump, endWallRun, emit])⟩
    · split
      · exact hjump _ rfl rfl rfl
      · exact ⟨rfl, rfl, fun hh => hh⟩
  · split
    · exact ⟨rfl, rfl, by intro hh; exact absurd hh (by simp [wallJump, endWallRun, emit])⟩
    · split
      · exact hjump _ rfl rfl rfl
      · exact ⟨rfl, rfl, fun hh => hh⟩

lemma sameWall_applyGravity (dt : ℚ) (s : PState) : sameWall s (applyGravity dt s) := by
  unfold applyGravity
  dsimp only
  repeat' split
  all_goals exact ⟨rfl, rfl, rfl⟩

lemma sameWall_applyVelocity (dt : ℚ) (s : PState) : sameWall s (applyVelocity dt s) := by
  unfold applyVelocity
  dsimp only
  repeat' split
  all_goals exact ⟨rfl, rfl, rfl⟩

lemma sameWall_checkGround (s : PState) : sameWall s (checkGround s) := by
  unfold checkGround emit
  dsimp only
  repeat' split
  all_goals exact ⟨rfl, rfl, rfl⟩

lemma sameWall_events (s : PState) :
    sameWall s (checkCrouchSlideEvents (checkSprintEvents s)) := by
  unfold checkCrouchSlideEvents checkSprintEvents emit
  dsimp only
  repeat' split
  all_goals exact ⟨rfl, rfl, rfl⟩

lemma handleWallRun_bound (env : JsMath) (dt : ℚ) (u : PState) (hdt : 0 ≤ dt)
    (hmax : 0 < u.wallRunMaxTime) (hw : u.wallRunTime ≤ u.wallRunMaxTime) :
    (handleWallRun env dt u).wallRunMaxTime = u.wallRunMaxTime ∧
    (handleWallRun env dt u).wallRunTime ≤ u.wallRunMaxTime + dt ∧
    (u.wallRunMaxTime ≤ (handleWallRun env dt u).wallRunTime →
      (handleWallRun env dt u).isWallRunning = false) := by
  unfold handleWallRun endWallRun startWallRun emit
  dsimp only
  split
  · -- grounded: the wall-run clock is reset
    split
    · exact ⟨rfl, by dsimp only; linarith, fun _ => rfl⟩
    · refine ⟨rfl, by dsimp only; linarith, fun _ => ?_⟩
      simp_all
  · split
    · -- currently wall running: the clock advances by dt before the checks
      split
      · exact ⟨rfl, by dsimp only; linarith, fun _ => rfl⟩
      · split
        · exact ⟨rfl, by dsimp only; linarith, fun _ => rfl⟩
        · rename_i hlt _
          refine ⟨rfl, by dsimp only; linarith [not_le.mp hlt], fun hh => ?_⟩
          exfalso
          have := not_le.mp hlt
          dsimp only at hh
          linarith
    · split
      · refine ⟨rfl, by linarith, fun _ => ?_⟩
        simp_all
      · split
        · refine ⟨rfl, by linarith, fun _ => ?_⟩
          simp_all
        · split
          · -- a new wall run starts with a fresh clock
            split
            · refine ⟨rfl, by dsimp only; linarith, fun hh => ?_⟩
              exfalso
              dsimp only at hh
              linarith
            · refine ⟨rfl, by dsimp only; linarith, fun hh => ?_⟩
              exfalso
              dsimp only at hh
              linarith
          · refine ⟨rfl, by linarith, fun _ => ?_⟩
            simp_all

/-- Claim C6 (amended; see `C6_counterexample` for the failure of the bound
as stated). `wallRunTime` can exceed `wallRunMaxTime`, but only within the
tick that force-ends the run and by at most that tick's `deltaTime`
(`handleWallRun` increments the clock before comparing, and the clock is not
reset when the run ends): after one `update` from a state whose wall-run
clock is within the limit, the clock is at most `wallRunMaxTime + deltaTime`,
and whenever it has reached `wallRunMaxTime`, the wall run has ended within
that same tick (`isWallRunning` is false). -/
theorem C6_wallrun_bound (env : JsMath) (inp : Input) (dt : ℚ) (s : PState)
    (hdt : 0 < dt) (hmax : 0 < s.wallRunMaxTime)
    (hw : s.wallRunTime ≤ s.wallRunMaxTime) :
    (update env inp dt s).wallRunTime ≤ s.wallRunMaxTime + dt ∧
    (s.wallRunMaxTime ≤ (update env inp dt s).wallRunTime →
      (update env inp dt s).isWallRunning = false) := by
  have h1 := sameWall_updateTimers dt s
  have h2 := sameWall_handleCrouchSlide env inp dt (updateTimers dt s)
  have h3 := sameWall_handleMovement env inp dt
    (handleCrouchSlide env inp dt (updateTimers dt s))
  have h12 := sameWall_trans h1 (sameWall_trans h2 h3)
  set s3 := handleMovement env inp dt (handleCrouchSlide env inp dt (updateTimers dt s))
    with hs3
  have h4 := wallMono_handleJump inp s3
  set s4 := handleJump inp s3 with hs4
  have hm4 : s4.wallRunMaxTime = s.wallRunMaxTime := h4.2.1.trans h12.2.1
  have ht4 : s4.wallRunTime = s.wallRunTime := h4.1.trans h12.1
  have h5 := handleWallRun_bound env dt s4 hdt.le (hm4 ▸ hmax) (by rw [hm4, ht4]; exact hw)
  set s5 := handleWallRun env dt s4 with hs5
  have h6 := sameWall_applyGravity dt s5
  have h7 := sameWall_applyVelocity dt (applyGravity dt s5)
  have h8 := sameWall_checkGround (applyVelocity dt (applyGravity dt s5))
  have h9 := sameWall_events
    (checkGround (applyVelocity dt (applyGravity dt s5)))
  have h69 := sameWall_trans h6 (sameWall_trans h7 (sameWall_trans h8 h9))
  have hupd : update env inp dt s =
      checkCrouchSlideEvents (checkSprintEvents (checkGround (applyVelocity dt
        (applyGravity dt s5)))) := rfl
  rw [hupd]
  constructor
  · rw [h69.1]
    calc s5.wallRunTime ≤ s4.wallRunMaxTime + dt := h5.2.1
    _ = s.wallRunMaxTime + dt := by rw [hm4]
  · intro hh
    rw [h69.1] at hh
    rw [h69.2.2]
    exact h5.2.2 (by rw [hm4]; exact hh)

/-- Witness for `C6_wallrun_bound` at the wall-running state, `dt = 0.1`. -/
theorem C6_wallrun_bound_witness :
    (0:ℚ) < 1/10 ∧ 0 < wallRunningState.wallRunMaxTime ∧
    wallRunningState.wallRunTime ≤ wallRunningState.wallRunMaxTime ∧
    (update env0 noInput (1/10) wallRunningState).wallRunTime ≤
      wallRunningState.wallRunMaxTime + 1/10 := by
  have h1 : (0:ℚ) < 1/10 := by norm_num
  have h2 : (0:ℚ) < wallRunningState.wallRunMaxTime := by
    norm_num [wallRunningState, groundedRestState]
  have h3 : wallRunningState.wallRunTime ≤ wallRunningState.wallRunMaxTime := by
    norm_num [wallRunningState, groundedRestState]
  exact ⟨h1, h2, h3,
    (C6_wallrun_bound env0 noInput (1/10) wallRunningState h1 h2 h3).1⟩

/-- Claim C6 as stated fails on the code: one tick of `dt = 0.1` from a
wall-running state with `wallRunTime = 4.95 ≤ wallRunMaxTime = 5` leaves
`wallRunTime = 5.05 > wallRunMaxTime` in the resulting state (the clock is
incremented past the limit and is not reset when the run force-ends). -/
theorem C6_counterexample :
    wallRunningState.wallRunTime ≤ wallRunningState.wallRunMaxTime ∧
    (update env0 noInput (1/10) wallRunningState).wallRunTime >
      (update env0 noInput (1/10) wallRunningState).wallRunMaxTime := by
  constructor
  · norm_num [wallRunningState, groundedRestState]
  · norm_num [update, updateTimers, handleCrouchSlide, slidingUpdate, slideFriction,
      crouchToggleUpdate, handleMovement, handleJump, handleWallRun, applyGravity,
      applyVelocity, checkGround, getGroundHeight, checkSprintEvents,
      checkCrouchSlideEvents, updateCrouchHeight, canStandUp, canStandUpAt,
      startCrouch, endCrouch, endSlide, startSlide, emit, qlerp, wallRunningState,
      groundedRestState, noInput, env0, detectWall, jump, wallJump, startWallRun,
      endWallRun, endCrouchSlide, COYOTE_TIME, PLAYER_HEIGHT, GRAVITY,
      TERMINAL_VELOCITY]

/-! ### Grounded jump velocity (C5) -/

/-- Claim C5 (amended; see `C5_counterexample` for the failure of the exact
value). From a grounded rest state, pressing jump makes the player airborne in
that tick, but `update` applies gravity after `handleJump` within the same
tick, so the tick ends with `velocity.y = JUMP_FORCE + GRAVITY * deltaTime`
(strictly less than `JUMP_FORCE`), not `JUMP_FORCE` itself. -/
theorem C5_jump_velocity (env : JsMath) (dt : ℚ) (hdt : 0 < dt)
    (hdt2 : dt ≤ 1/10) :
    (update env jumpInput dt groundedRestState).velocity.y =
      JUMP_FORCE + GRAVITY * dt ∧
    (update env jumpInput dt groundedRestState).isGrounded = false := by
  have hvy : (9:ℚ) ≤ JUMP_FORCE + GRAVITY * dt := by
    rw [JUMP_FORCE, GRAVITY]; linarith
  have hclamp : ¬(JUMP_FORCE + GRAVITY * dt < TERMINAL_VELOCITY) := by
    rw [TERMINAL_VELOCITY]; linarith
  have hy : 0 < (JUMP_FORCE + GRAVITY * dt) * dt := mul_pos (by linarith) hdt
  have hpos : ¬((9:ℚ)/5 + (JUMP_FORCE + GRAVITY * dt) * dt ≤ 9/5) := by linarith
  have hpos' : ¬((JUMP_FORCE + GRAVITY * dt) * dt ≤ (0:ℚ)) := by linarith
  have hneg : ¬(JUMP_FORCE + GRAVITY * dt < (0:ℚ)) := by linarith
  have hneg' : ¬(JUMP_FORCE + GRAVITY * dt ≤ (0:ℚ)) := by linarith
  norm_num [update, updateTimers, handleCrouchSlide, crouchToggleUpdate,
    updateCrouchHeight, handleMovement, handleJump, jump, endCrouchSlide,
    handleWallRun, applyGravity, applyVelocity, checkGround, getGroundHeight,
    checkSprintEvents, checkCrouchSlideEvents, emit, qlerp, canStandUp,
    canStandUpAt, startCrouch, endCrouch, endSlide, startSlide, detectWall,
    wallJump, startWallRun, endWallRun, groundedRestState, jumpInput,
    JUMP_BUFFER, JUMP_COOLDOWN, PLAYER_HEIGHT, COYOTE_TIME,
    hclamp, hpos, hpos', hneg, hneg']

/-- Witness for `C5_jump_velocity` at `dt = 0.1` with the zero math stub. -/
theorem C5_jump_velocity_witness :
    (0:ℚ) < 1/10 ∧ (1:ℚ)/10 ≤ 1/10 ∧
    ((update env0 jumpInput (1/10) groundedRestState).velocity.y =
        JUMP_FORCE + GRAVITY * (1/10) ∧
      (update env0 jumpInput (1/10) groundedRestState).isGrounded = false) :=
  ⟨by norm_num, by norm_num,
    C5_jump_velocity env0 (1/10) (by norm_num) (by norm_num)⟩

/-- Claim C5 as stated fails on the code: one `update` tick of `dt = 0.1`
from the grounded rest state with jump pressed ends with
`velocity.y = 9 ≠ JUMP_FORCE = 12` (gravity is integrated in the same tick
as the jump), though the player is indeed airborne. -/
theorem C5_counterexample :
    (update env0 jumpInput (1/10) groundedRestState).velocity.y ≠ JUMP_FORCE ∧
    (update env0 jumpInput (1/10) groundedRestState).isGrounded = false := by
  norm_num [update, updateTimers, handleCrouchSlide, crouchToggleUpdate,
    updateCrouchHeight, handleMovement, handleJump, jump, endCrouchSlide,
    handleWallRun, applyGravity, applyVelocity, checkGround, getGroundHeight,
    checkSprintEvents, checkCrouchSlideEvents, emit, qlerp, canStandUp,
    canStandUpAt, startCrouch, endCrouch, endSlide, startSlide, detectWall,
    wallJump, startWallRun, endWallRun, groundedRestState, jumpInput, env0,
    JUMP_BUFFER, JUMP_COOLDOWN, JUMP_FORCE, GRAVITY, TERMINAL_VELOCITY,
    PLAYER_HEIGHT, COYOTE_TIME]

end ETS
